import Mathlib

/-!
Verification of the adaptive-step-size matrix-completion optimizer
(`NEGradient_GenePriority/compute_models/smc.py`).

Shallow embedding conventions:
* Python floats are modelled as `F := Option ℝ`: `some x` is an ordinary
  (finite) double idealized as a real number, `none` models NaN (and the
  other non-real outcomes: the square root of a negative number, which
  numpy turns into NaN, and a fractional power of a negative number, which
  Python turns into a complex value that is likewise not a real; runs that
  divide a float by exact zero raise in Python and are conflated with the
  `none` runs here, no claim distinguishes them).  All arithmetic
  propagates `none`, and every comparison involving `none` is false,
  matching IEEE NaN semantics.
* scipy sparse matrices are modelled by `Mat`: a pair of dimensions and a
  total entry function; only entries with indices inside the dimensions
  are ever read by the operations below.
* The hyperparameters `lam, L, rho1, rho2, mu` are plain floats supplied by
  the caller and are modelled as real numbers.
-/

noncomputable section

/-- Scalar domain of the model: `some x` a finite double (idealized as a
real), `none` the NaN / non-real outcomes. -/
abbrev F := Option ℝ

/-- Addition, NaN-propagating. -/
def Fadd : F → F → F
  | some x, some y => some (x + y)
  | _, _ => none

/-- Subtraction, NaN-propagating. -/
def Fsub : F → F → F
  | some x, some y => some (x - y)
  | _, _ => none

/-- Multiplication, NaN-propagating. -/
def Fmul : F → F → F
  | some x, some y => some (x * y)
  | _, _ => none

/-- Division.  NaN propagates; division by exact zero is also sent to
`none` (Python raises ZeroDivisionError there; no claim depends on the
difference between that abort and a NaN run). -/
def Fdiv : F → F → F
  | some x, some y => if y = 0 then none else some (x / y)
  | _, _ => none

/-- Negation, NaN-propagating. -/
def Fneg : F → F
  | some x => some (-x)
  | none => none

/-- Square `a * a` as the code's `a ** 2`. -/
def Fpow2 (a : F) : F := Fmul a a

/-- Cube `a * a * a` as the code's `a ** 3`. -/
def Fpow3 (a : F) : F := Fmul a (Fmul a a)

/-- numpy square root: NaN on NaN, NaN on negative input, else the real
square root. -/
def Fsqrt : F → F
  | some x => if x < 0 then none else some (Real.sqrt x)
  | none => none

/-- The optimizer's cube-root helper `nthr(a, 3) = pow(a, 1/3)` as used
inside the optimization loop.  Along the loop its argument is either NaN
or a nonnegative real (the discriminant is provably nonnegative there);
a negative argument would give a non-real (complex) value in Python and
is sent to `none`.  The stand-alone complex semantics of `nthr` itself is
the separate definition `nthr` below. -/
def Fnthr3 : F → F
  | some x => if x < 0 then none else some (x ^ ((1 : ℝ) / 3))
  | none => none

/-- Strict greater-than on floats as a Bool: any comparison with NaN is
false, as in IEEE arithmetic. -/
def FgtB : F → F → Bool
  | some x, some y => if y < x then true else false
  | _, _ => false

/-- NaN test `np.isnan`. -/
def Fisnan : F → Bool
  | some _ => false
  | none => true

/-- Finite sum `f 0 + f 1 + ... + f (n-1)` over the float domain,
NaN-propagating (left fold as numpy's reduction). -/
def Fsum : ℕ → (ℕ → F) → F
  | 0, _ => some 0
  | n + 1, f => Fadd (Fsum n f) (f n)

/-- Matrix model: dimensions plus a total entry function.  Operations only
read entries whose indices lie inside the dimensions. -/
structure Mat where
  rows : ℕ
  cols : ℕ
  entry : ℕ → ℕ → F

namespace Mat

/-- Transpose (`A.T`). -/
def T (A : Mat) : Mat := ⟨A.cols, A.rows, fun i j => A.entry j i⟩

/-- Vertical stacking (`sp.vstack([A, B])`). -/
def vstack (A B : Mat) : Mat :=
  ⟨A.rows + B.rows, A.cols, fun i j =>
    if i < A.rows then A.entry i j else B.entry (i - A.rows) j⟩

/-- Elementwise (Hadamard) product (`A.multiply(B)`). -/
def hmul (A B : Mat) : Mat :=
  ⟨A.rows, A.cols, fun i j => Fmul (A.entry i j) (B.entry i j)⟩

/-- Matrix product (`A.dot(B)`). -/
def dot (A B : Mat) : Mat :=
  ⟨A.rows, B.cols, fun i j => Fsum A.cols fun l => Fmul (A.entry i l) (B.entry l j)⟩

/-- Entrywise difference (`A - B`). -/
def sub (A B : Mat) : Mat :=
  ⟨A.rows, A.cols, fun i j => Fsub (A.entry i j) (B.entry i j)⟩

/-- Entrywise sum (`A + B`). -/
def add (A B : Mat) : Mat :=
  ⟨A.rows, A.cols, fun i j => Fadd (A.entry i j) (B.entry i j)⟩

/-- Scalar multiple (`c * A`). -/
def smul (c : F) (A : Mat) : Mat :=
  ⟨A.rows, A.cols, fun i j => Fmul c (A.entry i j)⟩

/-- Row slice `A[:m, :]`. -/
def rowsTo (A : Mat) (m : ℕ) : Mat := ⟨m, A.cols, fun i j => A.entry i j⟩

/-- Row slice `A[m:, :]`. -/
def rowsFrom (A : Mat) (m : ℕ) : Mat :=
  ⟨A.rows - m, A.cols, fun i j => A.entry (m + i) j⟩

/-- Sum of squared in-range entries. -/
def frobSq (A : Mat) : F :=
  Fsum A.rows fun i => Fsum A.cols fun j => Fmul (A.entry i j) (A.entry i j)

/-- Frobenius norm (`sp.linalg.norm(A, ord="fro")`, the default norm for
sparse matrices). -/
def frobNorm (A : Mat) : F := Fsqrt A.frobSq

/-- The norm squared as the code writes it: `norm(A) ** 2` (square root
then square, not the plain sum of squares). -/
def normSq (A : Mat) : F := Fmul A.frobNorm A.frobNorm

/-- Sum of all in-range entries (`A.sum()`). -/
def sumAll (A : Mat) : F :=
  Fsum A.rows fun i => Fsum A.cols fun j => A.entry i j

end Mat

/-- Largest finite IEEE double, `np.finfo(float).max`. -/
def floatMax : ℝ := (2 ^ 53 - 1) * 2 ^ 971

/-- Inputs of a whole optimization run: the constructor arguments of
`MatrixCompletion` together with the arguments of `MC_adaptive_2`
(`lam, L, rho1, rho2, threshold`); `L0` is the initial value of the
mutable step-size scalar `L`. -/
structure Ctx where
  A : Mat
  mask : Mat
  test : Mat
  test_mask : Mat
  k : ℕ
  mu : ℝ
  iterations : ℕ
  lam : ℝ
  L0 : ℝ
  rho1 : ℝ
  rho2 : ℝ
  threshold : ℕ

/-- Mutable state of `MC_adaptive_2` between outer iterations: the factor
fields `self.H1, self.H2`, the stacked iterate `Wk`, the step-size
scalars `alpha_k` and `L`, and the two history lists. -/
structure RunState where
  H1 : Mat
  H2 : Mat
  Wk : Mat
  alpha : ℝ
  L : ℝ
  loss : List F
  rmse : List F

/-- Rolling state of the backtracking sub-loop: the step scalar `L` and
the candidate quantities it keeps overwriting. -/
structure InnerSt where
  L : ℝ
  H1 : Mat
  H2 : Mat
  Wk1 : Mat
  fk1 : F
  flag : Bool

/-- Which Python exception aborted the run: `OverflowError` from the
backtracking sub-loop, or the `NameError` on reading the loop variable
after a zero-iteration loop. -/
inductive MCErrKind where
  | overflow
  | nameErr
deriving DecidableEq

/-- An aborted run: the exception kind together with the values held by
the optimizer's mutable fields `self.H1, self.H2` at the moment the
exception is raised (the exception object itself does not carry them, but
the caller still holds the optimizer and can observe them). -/
structure MCFail where
  kind : MCErrKind
  H1 : Mat
  H2 : Mat

/-- Result record `MCAdaptive2Result` (wall-clock `runtime` is not
modelled). -/
structure MCResult where
  completed_matrix : Mat
  loss_history : List F
  iterations : ℕ
  rmse_history : List F

/-- Loss `0.5 * norm(mask.multiply(A - H1.dot(H2))) ** 2` of
`calculate_loss`. -/
def calcLoss (mask A H1 H2 : Mat) : F :=
  Fmul (some (1 / 2)) (Mat.normSq (mask.hmul (A.sub (H1.dot H2))))

/-- Number of in-range entries of a sparse matrix that differ from an
exact stored zero (`test_mask.nonzero()`). -/
def nonzeroCount (A : Mat) : ℕ :=
  (Finset.range A.rows).sum fun i =>
    (Finset.range A.cols).sum fun j => if A.entry i j ≠ some 0 then 1 else 0

/-- RMSE of `calculate_rmse`: the root of the mean squared difference,
over the nonzero positions of the test mask, between the test values and
the corresponding entries of `test_mask.multiply(H1.dot(H2))`.  An empty
test mask gives a zero denominator (sklearn raises there; conflated with
the NaN outcome `none`). -/
def calcRmse (test_mask test : Mat) (H1 H2 : Mat) : F :=
  Fsqrt (Fdiv
    (Fsum test_mask.rows fun i => Fsum test_mask.cols fun j =>
      if test_mask.entry i j ≠ some 0 then
        Fpow2 (Fsub (test.entry i j) (Fmul (test_mask.entry i j) ((H1.dot H2).entry i j)))
      else some 0)
    (some ((nonzeroCount test_mask : ℕ) : ℝ)))

/-- Static helper `nthr(a, n) = pow(a, 1/n)` with Python 3 power
semantics: a negative base with a fractional exponent is promoted to the
principal complex power `exp((1/n) * log a)`; zero to a positive power is
zero; the float exponent `1/n` is idealized as the exact rational. -/
def nthr (a : ℝ) (n : ℕ) : ℂ :=
  if a = 0 then 0 else Complex.exp ((1 / (n : ℂ)) * Complex.log (a : ℂ))

/-- Regularizer kernel `func_h`:
`0.25 * fro_norm ** 4 + 0.5 * tau * fro_norm ** 2`. -/
def func_h (W : Mat) (tau : F) : F :=
  Fadd (Fmul (some (1 / 4)) (Fpow2 (Fpow2 W.frobNorm)))
    (Fmul (Fmul (some (1 / 2)) tau) (Fpow2 W.frobNorm))

/-- Bregman gap `D_h(W1, W2, tau) = h(W1) - h(W2) -
((norm(W2)**2 + tau) * W2).T.dot(W1 - W2).sum()`. -/
def D_h (W1 W2 : Mat) (tau : F) : F :=
  Fsub (Fsub (func_h W1 tau) (func_h W2 tau))
    (Mat.sumAll ((W2.smul (Fadd (Mat.normSq W2) tau)).T.dot (W1.sub W2)))

/-- Setup scalar `tau = sp.linalg.norm(A) / 3` (line 163). -/
def setupTau (A : Mat) : F := Fdiv A.frobNorm (some 3)

/-- Setup scalar `tau1 = -(tau ** 2) / 3` (line 164): the negated square
of `tau`, divided by 3. -/
def setupTau1 (A : Mat) : F := Fdiv (Fneg (Fpow2 (setupTau A))) (some 3)

/-- The same scalar as the specification words it: `tau1 = -tau^3 / 3`,
the negated cube of `tau` divided by 3.  Stated from the spec, for
comparison with `setupTau1` which is stated from the source. -/
def specTau1 (A : Mat) : F := Fdiv (Fneg (Fpow3 (setupTau A))) (some 3)

/-- Setup scalar `t1 = tau1 / 3` (line 165). -/
def setupT1 (A : Mat) : F := Fdiv (setupTau1 A) (some 3)

/-- Stacked iterate `Wk = sp.vstack([H1, H2.T])` (line 161). -/
def stackW (H1 H2 : Mat) : Mat := H1.vstack H2.T

/-- Gradient w.r.t. `H1`:
`mask.multiply(H1.dot(H2) - A).dot(H2.T) + mu * H1` (lines 174-177). -/
def gradU (mask A : Mat) (mu : ℝ) (H1 H2 : Mat) : Mat :=
  ((mask.hmul ((H1.dot H2).sub A)).dot H2.T).add (H1.smul (some mu))

/-- Gradient w.r.t. `H2` (transposed):
`mask.T.multiply(H2.T.dot(H1.T) - A.T).dot(H1) + mu * H2.T`
(lines 178-183). -/
def gradV (mask A : Mat) (mu : ℝ) (H1 H2 : Mat) : Mat :=
  ((mask.T.hmul ((H2.T.dot H1.T).sub A.T)).dot H1).add (H2.T.smul (some mu))

/-- Stacked gradient `grad_f_Wk = sp.vstack([grad_u, grad_v])`
(line 184). -/
def gradfW (mask A : Mat) (mu : ℝ) (H1 H2 : Mat) : Mat :=
  (gradU mask A mu H1 H2).vstack (gradV mask A mu H1 H2)

/-- Gradient step `grad = (norm(Wk, "fro")**2 + tau) * Wk -
alpha_k * grad_f_Wk` (lines 187-189 and 227-229). -/
def gradStep (tau : F) (alpha : ℝ) (Wk gradf : Mat) : Mat :=
  (Wk.smul (Fadd (Mat.normSq Wk) tau)).sub (gradf.smul (some alpha))

/-- Cubic coefficient
`tau2 = (-2*(tau**3) - 27*(norm(grad, "fro")**2)) / 27 / 2`
(lines 190-194 and 230-234). -/
def tau2F (tau : F) (grad : Mat) : F :=
  Fdiv (Fdiv (Fsub (Fmul (some (-2)) (Fpow3 tau)) (Fmul (some 27) (Mat.normSq grad)))
    (some 27)) (some 2)

/-- Discriminant argument `tau2**2 + t1**3` of the outer step-2 proposal
(lines 197-198). -/
def step2Disc (tau2 t1 : F) : F := Fadd (Fpow2 tau2) (Fpow3 t1)

/-- Discriminant argument `tau2**2 + (t1/3)**3` of the backtracking
recomputation (lines 235-236); note the divisor 3 absent from step 2. -/
def innerDisc (tau2 t1 : F) : F := Fadd (Fpow2 tau2) (Fpow3 (Fdiv t1 (some 3)))

/-- Outer-step root piece `T1 = -tau2 + np.sqrt(tau2**2 + t1**3)`
(line 197). -/
def stepT1 (tau2 t1 : F) : F := Fadd (Fneg tau2) (Fsqrt (step2Disc tau2 t1))

/-- Outer-step root piece `T2 = -tau2 - np.sqrt(tau2**2 + t1**3)`
(line 198). -/
def stepT2 (tau2 t1 : F) : F := Fsub (Fneg tau2) (Fsqrt (step2Disc tau2 t1))

/-- Backtracking root piece `T1 = -tau2 + np.sqrt(tau2**2 + (t1/3)**3)`
(line 235). -/
def innerT1 (tau2 t1 : F) : F := Fadd (Fneg tau2) (Fsqrt (innerDisc tau2 t1))

/-- Backtracking root piece `T2 = -tau2 - np.sqrt(tau2**2 + (t1/3)**3)`
(line 236). -/
def innerT2 (tau2 t1 : F) : F := Fsub (Fneg tau2) (Fsqrt (innerDisc tau2 t1))

/-- Step scalar `t = (tau/3) + nthr(T1, 3) + nthr(T2, 3)` (lines 199 and
237). -/
def tOf (tau T1 T2 : F) : F :=
  Fadd (Fadd (Fdiv tau (some 3)) (Fnthr3 T1)) (Fnthr3 T2)

/-- Candidate iterate `Wk1 = (1 / t) * grad` (lines 202 and 238). -/
def candW (grad : Mat) (t : F) : Mat := grad.smul (Fdiv (some 1) t)

/-- Right-hand side of the sufficient-decrease test (lines 213-215):
`loss[-1] + grad_f_Wk.T.dot(Wk1 - Wk).sum() + L * D_h(Wk1, Wk, tau)`. -/
def acceptBound (lossLast : F) (L : ℝ) (gradf Wk1 Wk : Mat) (tau : F) : F :=
  Fadd (Fadd lossLast (Mat.sumAll (gradf.T.dot (Wk1.sub Wk))))
    (Fmul (some L) (D_h Wk1 Wk tau))

/-- Candidate recomputation inside the backtracking retry (lines
225-241): the updated `L`, `alpha = (1+lam)/L`, the gradient step, the
inner-loop root formulas of lines 230-237, the candidate `Wk1 = (1/t) *
grad`, and the overwrite of the optimizer's factor fields (`flag = 1`). -/
def innerRecompute (c : Ctx) (tau t1 : F) (m : ℕ) (Wk gradf : Mat)
    (L1 : ℝ) : InnerSt :=
  let grad1 := gradStep tau ((1 + c.lam) / L1) Wk gradf
  let Wk1 := candW grad1
    (tOf tau (innerT1 (tau2F tau grad1) t1) (innerT2 (tau2F tau grad1) t1))
  ⟨L1, Wk1.rowsTo m, (Wk1.rowsFrom m).T, Wk1,
    calcLoss c.mask c.A (Wk1.rowsTo m) ((Wk1.rowsFrom m).T), true⟩

/-- Backtracking sub-loop (lines 213-241).  The loop variable `j` counts
attempts; `fuel` is the structural bound `threshold - j` (the source
guarantees the raise at `j == threshold`, so for `threshold >= 1` and the
initial call `j = 0` the fuel-zero branch is never reached; it mirrors
the raise).  Each failed test either aborts with `OverflowError`
(carrying the optimizer's current factor fields) or recomputes the
candidate from the updated `alpha` and retests. -/
def innerLoop (c : Ctx) (tau t1 : F) (m : ℕ) (lossLast : F) (Wk gradf : Mat) :
    ℕ → ℕ → InnerSt → Except MCFail InnerSt
  | 0, _, st =>
    if FgtB st.fk1 (acceptBound lossLast st.L gradf st.Wk1 Wk tau) then
      Except.error ⟨MCErrKind.overflow, st.H1, st.H2⟩
    else Except.ok st
  | fuel + 1, j, st =>
    if FgtB st.fk1 (acceptBound lossLast st.L gradf st.Wk1 Wk tau) then
      if c.rho1 ^ (j + 1) > floatMax ∨ (j + 1) = c.threshold then
        Except.error ⟨MCErrKind.overflow, st.H1, st.H2⟩
      else
        innerLoop c tau t1 m lossLast Wk gradf fuel (j + 1)
          (innerRecompute c tau t1 m Wk gradf (st.L * c.rho1))
    else Except.ok st

/-- Step-2 candidate `Wk1 = (1/t) * grad` of an outer iteration (lines
186-202), with the outer-loop root formulas of lines 190-199. -/
def candidateW (c : Ctx) (tau t1 : F) (s : RunState) : Mat :=
  let gradf := gradfW c.mask c.A c.mu s.H1 s.H2
  let grad := gradStep tau s.alpha s.Wk gradf
  candW grad (tOf tau (stepT1 (tau2F tau grad) t1) (stepT2 (tau2F tau grad) t1))

/-- State of the optimizer when the backtracking sub-loop is first
entered (lines 202-210): the factor fields hold the split step-2
candidate, `fk1` its loss, and no backtracking has happened (`flag =
0`). -/
def startInner (c : Ctx) (tau t1 : F) (m : ℕ) (s : RunState) : InnerSt :=
  ⟨s.L, (candidateW c tau t1 s).rowsTo m, ((candidateW c tau t1 s).rowsFrom m).T,
    candidateW c tau t1 s,
    calcLoss c.mask c.A ((candidateW c tau t1 s).rowsTo m)
      (((candidateW c tau t1 s).rowsFrom m).T), false⟩

/-- Commit of an accepted iteration (lines 243-251): shrink `L` by `rho2`
if backtracking occurred, move to the accepted candidate, recompute
`alpha`, append the normalized loss and the RMSE. -/
def commitState (c : Ctx) (m n : ℕ) (s : RunState) (st : InnerSt) : RunState :=
  { H1 := st.H1, H2 := st.H2, Wk := st.Wk1,
    alpha := (1 + c.lam) / (if st.flag then st.L * c.rho2 else st.L),
    L := if st.flag then st.L * c.rho2 else st.L,
    loss := s.loss ++ [Fdiv st.fk1 (some ((m * n : ℕ) : ℝ))],
    rmse := s.rmse ++ [calcRmse c.test_mask c.test st.H1 st.H2] }

/-- One outer iteration (lines 170-259): gradient, step-2 candidate,
overwrite of the factor fields, backtracking, commit.  Returns the new
state together with the `np.isnan(fk1)` flag that triggers the break. -/
def outerStep (c : Ctx) (tau t1 : F) (m n : ℕ) (s : RunState) :
    Except MCFail (RunState × Bool) :=
  match innerLoop c tau t1 m (s.loss.getLastD none) s.Wk
      (gradfW c.mask c.A c.mu s.H1 s.H2) c.threshold 0
      (startInner c tau t1 m s) with
  | Except.error f => Except.error f
  | Except.ok st => Except.ok (commitState c m n s st, Fisnan st.fk1)

/-- Outer loop `for i in range(self.iterations)`.  `i` is the Python loop
variable; on normal exhaustion its final value is the last index `i - 1`,
on the NaN break it is the current index. -/
def outerLoop (c : Ctx) (tau t1 : F) (m n : ℕ) :
    ℕ → ℕ → RunState → Except MCFail (RunState × ℕ)
  | 0, i, s => Except.ok (s, i - 1)
  | fuel + 1, i, s =>
    match outerStep c tau t1 m n s with
    | Except.error f => Except.error f
    | Except.ok (s', b) =>
      if b then Except.ok (s', i) else outerLoop c tau t1 m n fuel (i + 1) s'

/-- Pre-loop setup of `MC_adaptive_2` (lines 152-166): baseline loss and
RMSE, stacked iterate, `alpha_k = 1 / L`. -/
def startState (c : Ctx) (H1 H2 : Mat) : RunState :=
  { H1 := H1, H2 := H2, Wk := stackW H1 H2,
    alpha := 1 / c.L0, L := c.L0,
    loss := [Fdiv (calcLoss c.mask c.A H1 H2) (some ((c.A.rows * c.A.cols : ℕ) : ℝ))],
    rmse := [calcRmse c.test_mask c.test H1 H2] }

/-- Whole `MC_adaptive_2` run.  With a zero iteration budget Python reads
the undefined loop variable at line 276 and raises `NameError`; the
backtracking `OverflowError` propagates unchanged (the `except` clause
logs and re-raises).  A normal or NaN-terminated run returns the result
record with `iterations = i`, the final value of the loop variable. -/
def MCrun (c : Ctx) (H1 H2 : Mat) : Except MCFail MCResult :=
  if c.iterations = 0 then Except.error ⟨MCErrKind.nameErr, H1, H2⟩
  else
    match outerLoop c (setupTau c.A) (setupT1 c.A) c.A.rows c.A.cols
        c.iterations 0 (startState c H1 H2) with
    | Except.error f => Except.error f
    | Except.ok (s, i) =>
      Except.ok { completed_matrix := s.H1.dot s.H2, loss_history := s.loss,
                  iterations := i, rmse_history := s.rmse }

/-- State held by a freshly constructed `MatrixCompletion` object. -/
structure MCState where
  A : Mat
  mask : Mat
  test_matrix : Mat
  test_mask : Mat
  k : ℕ
  mu : ℝ
  iterations : ℕ
  H1 : Mat
  H2 : Mat

/-- Constructor `MatrixCompletion.__init__` (lines 61-100): stores the
inputs and draws `H1` (m by k) and `H2` (k by n) from the seeded
standard-normal stream.  The values of numpy's seeded generator are not
reproducible here and are abstracted as the streams `randn1, randn2`; the
source performs no shape validation and defines no
`InvalidDimensionError`, so construction is total. -/
def MCinit (A mask test test_mask : Mat) (k : ℕ) (mu : ℝ) (iterations : ℕ)
    (randn1 randn2 : ℕ → ℕ → ℝ) : MCState :=
  { A := A, mask := mask, test_matrix := test, test_mask := test_mask,
    k := k, mu := mu, iterations := iterations,
    H1 := ⟨A.rows, k, fun i j => some (randn1 i j)⟩,
    H2 := ⟨k, A.cols, fun i j => some (randn2 i j)⟩ }

/-- Constant matrix with every entry the finite double `x`. -/
def cmat (r c : ℕ) (x : ℝ) : Mat := ⟨r, c, fun _ _ => some x⟩

/-- Matrix all of whose entries are NaN (for instance the factor matrices
left behind by a previous NaN-divergent run). -/
def nanMat (r c : ℕ) : Mat := ⟨r, c, fun _ _ => none⟩

/-- Concrete 1 by 1 input matrix holding 6, Frobenius norm 6. -/
def A6 : Mat := cmat 1 1 6

/-- Concrete 1 by 1 input matrix holding 9, Frobenius norm 9, `tau = 3`,
`t1 = -1`. -/
def A9 : Mat := cmat 1 1 9

/-- Run R1: a 1 by 1 instance (`A = 0`, full mask, `mu = 0`) with a
two-iteration budget and hyperparameters chosen so that both iterations
are accepted without backtracking, every intermediate scalar is rational,
and the committed loss increases at the second iteration. -/
def ctxR1 : Ctx :=
  { A := cmat 1 1 0, mask := cmat 1 1 1, test := cmat 1 1 0,
    test_mask := cmat 1 1 1, k := 1, mu := 0, iterations := 2,
    lam := -602 / 271, L0 := 500 / 271, rho1 := 2, rho2 := 1 / 2,
    threshold := 20 }

/-- Run R2: a 1 by 1 instance whose first sufficient-decrease test fails
and whose backtracking budget is 1, so the first retry raises the
overflow error with the rejected candidate still stored in the factor
fields. -/
def ctxR2 : Ctx :=
  { A := cmat 1 1 0, mask := cmat 1 1 1, test := cmat 1 1 0,
    test_mask := cmat 1 1 1, k := 1, mu := 0, iterations := 1,
    lam := 0, L0 := 1 / 4, rho1 := 1, rho2 := 1, threshold := 1 }

/-- Run R3: a 1 by 1 instance whose `H1` is NaN-poisoned, so the first
committed loss is NaN and the run stops by the NaN break with a
two-iteration budget remaining. -/
def ctxR3 : Ctx :=
  { A := cmat 1 1 0, mask := cmat 1 1 1, test := cmat 1 1 0,
    test_mask := cmat 1 1 1, k := 1, mu := 0, iterations := 2,
    lam := 0, L0 := 1, rho1 := 2, rho2 := 1 / 2, threshold := 20 }

/-- The Bool `true` exactly when an outer step returned normally with the
NaN flag set (the committed loss of that iteration is NaN). -/
def nanFlagged : Except MCFail (RunState × Bool) → Bool
  | Except.ok (_, true) => true
  | _ => false

/-- Start state of run R2 (`H1 = [[1]]`, `H2 = [[3]]`). -/
def s2 : RunState := startState ctxR2 (cmat 1 1 1) (cmat 1 1 3)

/-- Step-2 candidate of R2's single outer iteration. -/
def cand2 : Mat := candidateW ctxR2 (some 0) (some 0) s2

/-- Optimizer state entering R2's backtracking sub-loop. -/
def st2 : InnerSt := startInner ctxR2 (some 0) (some 0) 1 s2

/-- Start state of run R1 (`H1 = [[1]]`, `H2 = [[1]]`). -/
def s1a : RunState := startState ctxR1 (cmat 1 1 1) (cmat 1 1 1)

/-- Optimizer state entering R1's first backtracking sub-loop. -/
def st1a : InnerSt := startInner ctxR1 (some 0) (some 0) 1 s1a

/-- State of R1 after its first (accepted, no-backtracking) iteration. -/
def s1b : RunState := commitState ctxR1 1 1 s1a st1a

/-- Optimizer state entering R1's second backtracking sub-loop. -/
def st1b : InnerSt := startInner ctxR1 (some 0) (some 0) 1 s1b

/-- State of R1 after its second (accepted) iteration, whose committed
loss is larger than the previous one. -/
def s1c : RunState := commitState ctxR1 1 1 s1b st1b

/-- Start state of run R3 (`H1` NaN-poisoned). -/
def s3 : RunState := startState ctxR3 (nanMat 1 1) (cmat 1 1 1)

/-- Optimizer state entering R3's backtracking sub-loop. -/
def st3 : InnerSt := startInner ctxR3 (some 0) (some 0) 1 s3

/-- State of R3 after its first iteration commits a NaN loss. -/
def s3b : RunState := commitState ctxR3 1 1 s3 st3

/-! Evaluation lemmas for the float domain. -/

@[simp] theorem Fadd_some_some (a b : ℝ) : Fadd (some a) (some b) = some (a + b) := rfl

@[simp] theorem Fadd_none_left (b : F) : Fadd none b = none := rfl

@[simp] theorem Fadd_none_right (a : F) : Fadd a none = none := by cases a <;> rfl

@[simp] theorem Fsub_some_some (a b : ℝ) : Fsub (some a) (some b) = some (a - b) := rfl

@[simp] theorem Fsub_none_left (b : F) : Fsub none b = none := rfl

@[simp] theorem Fsub_none_right (a : F) : Fsub a none = none := by cases a <;> rfl

@[simp] theorem Fmul_some_some (a b : ℝ) : Fmul (some a) (some b) = some (a * b) := rfl

@[simp] theorem Fmul_none_left (b : F) : Fmul none b = none := rfl

@[simp] theorem Fmul_none_right (a : F) : Fmul a none = none := by cases a <;> rfl

@[simp] theorem Fneg_some (a : ℝ) : Fneg (some a) = some (-a) := rfl

@[simp] theorem Fneg_none : Fneg none = none := rfl

@[simp] theorem Fpow2_some (a : ℝ) : Fpow2 (some a) = some (a * a) := rfl

@[simp] theorem Fpow2_none : Fpow2 none = none := rfl

@[simp] theorem Fpow3_some (a : ℝ) : Fpow3 (some a) = some (a * (a * a)) := rfl

@[simp] theorem Fpow3_none : Fpow3 none = none := rfl

@[simp] theorem Fdiv_none_left (b : F) : Fdiv none b = none := rfl

@[simp] theorem Fdiv_none_right (a : F) : Fdiv a none = none := by cases a <;> rfl

theorem Fdiv_some_some (a b : ℝ) (h : b ≠ 0) : Fdiv (some a) (some b) = some (a / b) := by
  simp [Fdiv, h]

@[simp] theorem Fsqrt_none : Fsqrt none = none := rfl

@[simp] theorem Fnthr3_none : Fnthr3 none = none := rfl

@[simp] theorem Fisnan_some (a : ℝ) : Fisnan (some a) = false := rfl

@[simp] theorem Fisnan_none : Fisnan none = true := rfl

@[simp] theorem FgtB_none_left (b : F) : FgtB none b = false := by cases b <;> rfl

@[simp] theorem FgtB_none_right (a : F) : FgtB a none = false := by cases a <;> rfl

theorem FgtB_of_le (a b : ℝ) (h : a ≤ b) : FgtB (some a) (some b) = false := by
  simp [FgtB, not_lt.mpr h]

theorem FgtB_of_lt (a b : ℝ) (h : b < a) : FgtB (some a) (some b) = true := by
  simp [FgtB, h]

theorem Fsqrt_some (x : ℝ) (h : 0 ≤ x) : Fsqrt (some x) = some (Real.sqrt x) := by
  simp [Fsqrt, not_lt.mpr h]

theorem Fsqrt_some_sq (x q : ℝ) (hq : 0 ≤ q) (h : x = q ^ 2) : Fsqrt (some x) = some q := by
  subst h
  rw [Fsqrt, if_neg (not_lt.mpr (sq_nonneg q)), Real.sqrt_sq hq]

theorem Fsqrt_mul_self (S : ℝ) (h : 0 ≤ S) :
    Fmul (Fsqrt (some S)) (Fsqrt (some S)) = some S := by
  rw [Fsqrt, if_neg (not_lt.mpr h), Fmul_some_some, Real.mul_self_sqrt h]

theorem Fpow2_sqrt (S : ℝ) (h : 0 ≤ S) : Fpow2 (Fsqrt (some S)) = some S :=
  Fsqrt_mul_self S h

theorem Fnthr3_cube (x q : ℝ) (hq : 0 ≤ q) (h : x = q ^ 3) : Fnthr3 (some x) = some q := by
  subst h
  rw [Fnthr3, if_neg (not_lt.mpr (by positivity))]
  rw [← Real.rpow_natCast q 3, ← Real.rpow_mul hq]
  norm_num

theorem Fnthr3_zero : Fnthr3 (some 0) = some 0 := by
  rw [Fnthr3, if_neg (lt_irrefl 0), Real.zero_rpow (by norm_num)]

@[simp] theorem Fsum_zero (f : ℕ → F) : Fsum 0 f = some 0 := rfl

@[simp] theorem Fsum_succ (n : ℕ) (f : ℕ → F) : Fsum (n + 1) f = Fadd (Fsum n f) (f n) := rfl

theorem Fsum_one (f : ℕ → F) : Fsum 1 f = Fadd (some 0) (f 0) := rfl

theorem Fsum_two (f : ℕ → F) : Fsum 2 f = Fadd (Fadd (some 0) (f 0)) (f 1) := rfl

/-! Evaluation lemmas for the matrix domain. -/

@[simp] theorem cmat_rows (r c : ℕ) (x : ℝ) : (cmat r c x).rows = r := rfl

@[simp] theorem cmat_cols (r c : ℕ) (x : ℝ) : (cmat r c x).cols = c := rfl

@[simp] theorem cmat_entry (r c : ℕ) (x : ℝ) (i j : ℕ) : (cmat r c x).entry i j = some x := rfl

@[simp] theorem nanMat_rows (r c : ℕ) : (nanMat r c).rows = r := rfl

@[simp] theorem nanMat_cols (r c : ℕ) : (nanMat r c).cols = c := rfl

@[simp] theorem nanMat_entry (r c i j : ℕ) : (nanMat r c).entry i j = none := rfl

@[simp] theorem MatT_rows (A : Mat) : A.T.rows = A.cols := rfl

@[simp] theorem MatT_cols (A : Mat) : A.T.cols = A.rows := rfl

@[simp] theorem MatT_entry (A : Mat) (i j : ℕ) : A.T.entry i j = A.entry j i := rfl

@[simp] theorem vstack_rows (A B : Mat) : (A.vstack B).rows = A.rows + B.rows := rfl

@[simp] theorem vstack_cols (A B : Mat) : (A.vstack B).cols = A.cols := rfl

theorem vstack_entry_lt (A B : Mat) (i j : ℕ) (h : i < A.rows) :
    (A.vstack B).entry i j = A.entry i j := by simp [Mat.vstack, h]

theorem vstack_entry_ge (A B : Mat) (i j : ℕ) (h : ¬ i < A.rows) :
    (A.vstack B).entry i j = B.entry (i - A.rows) j := by simp [Mat.vstack, h]

@[simp] theorem hmul_rows (A B : Mat) : (A.hmul B).rows = A.rows := rfl

@[simp] theorem hmul_cols (A B : Mat) : (A.hmul B).cols = A.cols := rfl

@[simp] theorem hmul_entry (A B : Mat) (i j : ℕ) :
    (A.hmul B).entry i j = Fmul (A.entry i j) (B.entry i j) := rfl

@[simp] theorem dot_rows (A B : Mat) : (A.dot B).rows = A.rows := rfl

@[simp] theorem dot_cols (A B : Mat) : (A.dot B).cols = B.cols := rfl

theorem dot_entry (A B : Mat) (i j : ℕ) :
    (A.dot B).entry i j = Fsum A.cols fun l => Fmul (A.entry i l) (B.entry l j) := rfl

@[simp] theorem Msub_rows (A B : Mat) : (A.sub B).rows = A.rows := rfl

@[simp] theorem Msub_cols (A B : Mat) : (A.sub B).cols = A.cols := rfl

@[simp] theorem Msub_entry (A B : Mat) (i j : ℕ) :
    (A.sub B).entry i j = Fsub (A.entry i j) (B.entry i j) := rfl

@[simp] theorem Madd_rows (A B : Mat) : (A.add B).rows = A.rows := rfl

@[simp] theorem Madd_cols (A B : Mat) : (A.add B).cols = A.cols := rfl

@[simp] theorem Madd_entry (A B : Mat) (i j : ℕ) :
    (A.add B).entry i j = Fadd (A.entry i j) (B.entry i j) := rfl

@[simp] theorem smul_rows (c : F) (A : Mat) : (A.smul c).rows = A.rows := rfl

@[simp] theorem smul_cols (c : F) (A : Mat) : (A.smul c).cols = A.cols := rfl

@[simp] theorem smul_entry (c : F) (A : Mat) (i j : ℕ) :
    (A.smul c).entry i j = Fmul c (A.entry i j) := rfl

@[simp] theorem rowsTo_rows (A : Mat) (m : ℕ) : (A.rowsTo m).rows = m := rfl

@[simp] theorem rowsTo_cols (A : Mat) (m : ℕ) : (A.rowsTo m).cols = A.cols := rfl

@[simp] theorem rowsTo_entry (A : Mat) (m i j : ℕ) : (A.rowsTo m).entry i j = A.entry i j := rfl

@[simp] theorem rowsFrom_rows (A : Mat) (m : ℕ) : (A.rowsFrom m).rows = A.rows - m := rfl

@[simp] theorem rowsFrom_cols (A : Mat) (m : ℕ) : (A.rowsFrom m).cols = A.cols := rfl

@[simp] theorem rowsFrom_entry (A : Mat) (m i j : ℕ) :
    (A.rowsFrom m).entry i j = A.entry (m + i) j := rfl

theorem normSq_eval (A : Mat) (S : ℝ) (h0 : 0 ≤ S) (h : A.frobSq = some S) :
    Mat.normSq A = some S := by
  rw [Mat.normSq, Mat.frobNorm, h, Fsqrt_mul_self S h0]

theorem normSq_none (A : Mat) (h : A.frobSq = none) : Mat.normSq A = none := by
  rw [Mat.normSq, Mat.frobNorm, h, Fsqrt_none, Fmul_none_left]

/-! Concrete evaluations used across the claims. -/

theorem frobSq_cmat11 (x : ℝ) : (cmat 1 1 x).frobSq = some (x * x) := by
  simp [Mat.frobSq, Fsum_one]

theorem A6_frobSq : A6.frobSq = some 36 := by
  show (cmat 1 1 6).frobSq = some 36
  rw [frobSq_cmat11]; norm_num

theorem setupTau_A6 : setupTau A6 = some 2 := by
  rw [setupTau, Mat.frobNorm, A6_frobSq,
    Fsqrt_some_sq 36 6 (by norm_num) (by norm_num),
    Fdiv_some_some 6 3 (by norm_num)]
  norm_num

/-- C1, amended part: for every input matrix `A` with finite entries the
setup scalars are `tau = ||A||_F / 3`, `tau1 = -tau^2 / 3` (the negated
SQUARE of tau, not the cube), and `t1 = tau1 / 3`. -/
theorem claim1_theorem (A : Mat) (x : ℝ) (hx : A.frobSq = some x) (h0 : 0 ≤ x) :
    setupTau A = some (Real.sqrt x / 3) ∧
    setupTau1 A = some (-(Real.sqrt x / 3) ^ 2 / 3) ∧
    setupT1 A = some (-(Real.sqrt x / 3) ^ 2 / 3 / 3) := by
  have ht : setupTau A = some (Real.sqrt x / 3) := by
    rw [setupTau, Mat.frobNorm, hx, Fsqrt_some x h0,
      Fdiv_some_some _ 3 (by norm_num)]
  have ht1 : setupTau1 A = some (-(Real.sqrt x / 3) ^ 2 / 3) := by
    rw [setupTau1, ht, Fpow2_some, Fneg_some, Fdiv_some_some _ 3 (by norm_num)]
    congr 1
    ring
  refine ⟨ht, ht1, ?_⟩
  rw [setupT1, ht1, Fdiv_some_some _ 3 (by norm_num)]

/-- C1 witness: the amended formulas evaluated on the concrete matrix
`A6 = [[6]]` with `||A6||_F^2 = 36`. -/
theorem claim1_witness :
    A6.frobSq = some 36 ∧ (0 : ℝ) ≤ 36 ∧
    (setupTau A6 = some (Real.sqrt 36 / 3) ∧
      setupTau1 A6 = some (-(Real.sqrt 36 / 3) ^ 2 / 3) ∧
      setupT1 A6 = some (-(Real.sqrt 36 / 3) ^ 2 / 3 / 3)) :=
  ⟨A6_frobSq, by norm_num, claim1_theorem A6 36 A6_frobSq (by norm_num)⟩

/-- C1 counterexample: on `A6 = [[6]]` the run setup computes `tau = 2`
and `tau1 = -(tau**2)/3 = -4/3`, while the claimed formula
`tau1 = -tau^3/3` gives `-8/3`; the two disagree. -/
theorem claim1_counterexample :
    setupTau A6 = some 2 ∧ setupTau1 A6 = some (-(4 / 3)) ∧
    specTau1 A6 = some (-(8 / 3)) ∧ setupTau1 A6 ≠ specTau1 A6 := by
  have h1 : setupTau1 A6 = some (-(4 / 3)) := by
    rw [setupTau1, setupTau_A6, Fpow2_some, Fneg_some,
      Fdiv_some_some _ 3 (by norm_num)]
    norm_num
  have h2 : specTau1 A6 = some (-(8 / 3)) := by
    rw [specTau1, setupTau_A6, Fpow3_some, Fneg_some,
      Fdiv_some_some _ 3 (by norm_num)]
    norm_num
  refine ⟨setupTau_A6, h1, h2, ?_⟩
  rw [h1, h2]
  intro h
  have := Option.some.inj h
  norm_num at this

/-- Value of the source's power-based root helper on the input `(-8, 3)`:
Python 3 promotes the negative base to the principal complex power, which
is `2 * exp(i*pi/3) = 1 + sqrt 3 * i`, not a real number. -/
theorem nthr_neg8 : nthr (-8) 3 = 1 + Real.sqrt 3 * Complex.I := by
  rw [nthr, if_neg (by norm_num : (-8 : ℝ) ≠ 0)]
  have hlog : Complex.log ((-8 : ℝ) : ℂ) =
      (Real.log 8 : ℂ) + (Real.pi : ℂ) * Complex.I := by
    refine Complex.ext ?_ ?_
    · rw [Complex.log_re, Complex.abs_ofReal, show |(-8 : ℝ)| = 8 by norm_num]
      simp only [Complex.add_re, Complex.ofReal_re, Complex.mul_re,
        Complex.ofReal_im, Complex.I_re, Complex.I_im]
      ring
    · rw [Complex.log_im, Complex.arg_ofReal_of_neg (by norm_num : (-8 : ℝ) < 0)]
      simp only [Complex.add_im, Complex.ofReal_im, Complex.mul_im,
        Complex.ofReal_re, Complex.I_re, Complex.I_im]
      ring
  rw [hlog]
  have h2 : (1 / ((3 : ℕ) : ℂ)) * ((Real.log 8 : ℂ) + (Real.pi : ℂ) * Complex.I) =
      ((Real.log 8 / 3 : ℝ) : ℂ) + ((Real.pi / 3 : ℝ) : ℂ) * Complex.I := by
    push_cast
    ring
  rw [h2, Complex.exp_add, Complex.exp_mul_I]
  rw [← Complex.ofReal_exp]
  have h3 : Real.exp (Real.log 8 / 3) = 2 := by
    have h8 : Real.log 8 = 3 * Real.log 2 := by
      rw [show (8 : ℝ) = 2 ^ 3 by norm_num, Real.log_pow]
      push_cast
      ring
    rw [h8, show 3 * Real.log 2 / 3 = Real.log 2 by ring, Real.exp_log (by norm_num)]
  rw [h3, ← Complex.ofReal_cos, ← Complex.ofReal_sin,
    Real.cos_pi_div_three, Real.sin_pi_div_three]
  push_cast
  ring

/-- C2: on the negative input `a = -8` with odd `n = 3` the helper
`nthr` does NOT return the negative real cube root `-2`: following
Python 3 power semantics it produces the principal complex root
`1 + sqrt 3 * i`, whose imaginary part is nonzero and whose real part is
positive, so the sign of the argument is not preserved.  This contradicts
the helper's own docstring (a float n-th root) and the claim. -/
theorem claim2_theorem :
    nthr (-8) 3 = 1 + Real.sqrt 3 * Complex.I ∧
    nthr (-8) 3 ≠ ((-2 : ℝ) : ℂ) ∧ (nthr (-8) 3).im ≠ 0 ∧ 0 < (nthr (-8) 3).re := by
  have hsqrt3 : Real.sqrt 3 ≠ 0 := by
    rw [Real.sqrt_ne_zero']
    norm_num
  have him : (1 + (Real.sqrt 3 : ℂ) * Complex.I).im = Real.sqrt 3 := by
    simp
  refine ⟨nthr_neg8, ?_, ?_, ?_⟩
  · rw [nthr_neg8]
    intro h
    have h2 := congrArg Complex.im h
    rw [him] at h2
    simp only [Complex.ofReal_im] at h2
    exact hsqrt3 h2
  · rw [nthr_neg8, him]
    exact hsqrt3
  · rw [nthr_neg8]
    simp

theorem A9_frobSq : A9.frobSq = some 81 := by
  show (cmat 1 1 9).frobSq = some 81
  rw [frobSq_cmat11]; norm_num

theorem setupTau_A9 : setupTau A9 = some 3 := by
  rw [setupTau, Mat.frobNorm, A9_frobSq,
    Fsqrt_some_sq 81 9 (by norm_num) (by norm_num),
    Fdiv_some_some 9 3 (by norm_num)]
  norm_num

theorem setupT1_A9 : setupT1 A9 = some (-1) := by
  rw [setupT1, setupTau1, setupTau_A9, Fpow2_some, Fneg_some,
    Fdiv_some_some _ 3 (by norm_num), Fdiv_some_some _ 3 (by norm_num)]
  norm_num

theorem frobSq_cmat21_zero : (cmat 2 1 0).frobSq = some 0 := by
  simp [Mat.frobSq, Fsum_two, Fsum_one]

/-- C5: on the concrete input `A9 = [[9]]` (so `tau = 3`, `t1 = -1`) and
the zero gradient-step matrix (reached from the all-zero factor state,
where `tau2 = -1`), the backtracking recomputation does NOT use the same
discriminant as the step-2 proposal: step 2 computes
`tau2**2 + t1**3 = 0` while the inner loop computes
`tau2**2 + (t1/3)**3 = 26/27`, so the recomputed `T1` differs from the
step-2 `T1` at equal inputs. -/
theorem claim5_theorem :
    setupT1 A9 = some (-1) ∧
    tau2F (setupTau A9) (cmat 2 1 0) = some (-1) ∧
    step2Disc (some (-1)) (some (-1)) = some 0 ∧
    innerDisc (some (-1)) (some (-1)) = some (26 / 27) ∧
    innerDisc (some (-1)) (some (-1)) ≠ step2Disc (some (-1)) (some (-1)) ∧
    stepT1 (some (-1)) (some (-1)) = some 1 ∧
    innerT1 (some (-1)) (some (-1)) = some (1 + Real.sqrt (26 / 27)) ∧
    innerT1 (some (-1)) (some (-1)) ≠ stepT1 (some (-1)) (some (-1)) := by
  have htau2 : tau2F (setupTau A9) (cmat 2 1 0) = some (-1) := by
    rw [tau2F, setupTau_A9, Fpow3_some,
      normSq_eval (cmat 2 1 0) 0 le_rfl frobSq_cmat21_zero,
      Fmul_some_some, Fmul_some_some, Fsub_some_some,
      Fdiv_some_some _ 27 (by norm_num), Fdiv_some_some _ 2 (by norm_num)]
    norm_num
  have hd2 : step2Disc (some (-1)) (some (-1)) = some 0 := by
    rw [step2Disc, Fpow2_some, Fpow3_some, Fadd_some_some]
    norm_num
  have hdi : innerDisc (some (-1)) (some (-1)) = some (26 / 27) := by
    rw [innerDisc, Fpow2_some, Fdiv_some_some _ 3 (by norm_num), Fpow3_some,
      Fadd_some_some]
    norm_num
  have hT1 : stepT1 (some (-1)) (some (-1)) = some 1 := by
    rw [stepT1, hd2, Fneg_some, Fsqrt_some_sq 0 0 le_rfl (by norm_num),
      Fadd_some_some]
    norm_num
  have hTi : innerT1 (some (-1)) (some (-1)) = some (1 + Real.sqrt (26 / 27)) := by
    rw [innerT1, hdi, Fneg_some, Fsqrt_some _ (by norm_num), Fadd_some_some]
    norm_num
  refine ⟨setupT1_A9, htau2, hd2, hdi, ?_, hT1, hTi, ?_⟩
  · rw [hd2, hdi]
    intro h
    have := Option.some.inj h
    norm_num at this
  · rw [hT1, hTi]
    intro h
    have h2 := Option.some.inj h
    have h3 : Real.sqrt (26 / 27) = 0 := by linarith
    rw [Real.sqrt_eq_zero (by norm_num)] at h3
    norm_num at h3

/-- C3 amended: construction performs no dimension validation at all: for
every combination of input shapes (matching or not) it returns normally,
stores the inputs unchanged, and initializes `H1` (m by k) and `H2`
(k by n) from the sampler.  No `InvalidDimensionError` exists in the
source. -/
theorem claim3_theorem (A mask test test_mask : Mat) (k : ℕ) (mu : ℝ)
    (iters : ℕ) (r1 r2 : ℕ → ℕ → ℝ) :
    (MCinit A mask test test_mask k mu iters r1 r2).H1.rows = A.rows ∧
    (MCinit A mask test test_mask k mu iters r1 r2).H1.cols = k ∧
    (MCinit A mask test test_mask k mu iters r1 r2).H2.rows = k ∧
    (MCinit A mask test test_mask k mu iters r1 r2).H2.cols = A.cols ∧
    (∀ i j, (MCinit A mask test test_mask k mu iters r1 r2).H1.entry i j =
      some (r1 i j)) ∧
    (∀ i j, (MCinit A mask test test_mask k mu iters r1 r2).H2.entry i j =
      some (r2 i j)) ∧
    (MCinit A mask test test_mask k mu iters r1 r2).A = A ∧
    (MCinit A mask test test_mask k mu iters r1 r2).mask = mask ∧
    (MCinit A mask test test_mask k mu iters r1 r2).test_matrix = test ∧
    (MCinit A mask test test_mask k mu iters r1 r2).test_mask = test_mask :=
  ⟨rfl, rfl, rfl, rfl, fun _ _ => rfl, fun _ _ => rfl, rfl, rfl, rfl, rfl⟩

/-- C3 counterexample: constructing with a 3 by 5 mask against a 2 by 2
data matrix does not raise anything — `MCinit` is a total function — and
the factor matrices ARE initialized (`H1` is 2 by 2 and `H2` is 2 by 2),
contradicting both halves of the claim. -/
theorem claim3_counterexample :
    (cmat 3 5 1).rows ≠ (cmat 2 2 0).rows ∧
    (MCinit (cmat 2 2 0) (cmat 3 5 1) (cmat 2 2 0) (cmat 2 2 0) 2 0 5
      (fun _ _ => 0) (fun _ _ => 0)).H1.rows = 2 ∧
    (MCinit (cmat 2 2 0) (cmat 3 5 1) (cmat 2 2 0) (cmat 2 2 0) 2 0 5
      (fun _ _ => 0) (fun _ _ => 0)).H1.cols = 2 ∧
    (MCinit (cmat 2 2 0) (cmat 3 5 1) (cmat 2 2 0) (cmat 2 2 0) 2 0 5
      (fun _ _ => 0) (fun _ _ => 0)).H2.rows = 2 ∧
    (MCinit (cmat 2 2 0) (cmat 3 5 1) (cmat 2 2 0) (cmat 2 2 0) 2 0 5
      (fun _ _ => 0) (fun _ _ => 0)).H2.cols = 2 ∧
    (MCinit (cmat 2 2 0) (cmat 3 5 1) (cmat 2 2 0) (cmat 2 2 0) 2 0 5
      (fun _ _ => 0) (fun _ _ => 0)).H1.entry 0 0 = some 0 :=
  ⟨by norm_num, rfl, rfl, rfl, rfl, rfl⟩

/-- Shape invariant of the backtracking sub-loop: every recomputed
candidate keeps the stacked shape `R` by `C` of `Wk` and splits into an
`m` by `C` first factor and a `C` by `R - m` second factor. -/
theorem innerLoop_shapes (c : Ctx) (tau t1 : F) (m : ℕ) (lossLast : F)
    (Wk gradf : Mat) (R C : ℕ) (hR : Wk.rows = R) (hC : Wk.cols = C) :
    ∀ (fuel j : ℕ) (st st' : InnerSt),
      st.H1.rows = m → st.H1.cols = C → st.H2.rows = C → st.H2.cols = R - m →
      st.Wk1.rows = R → st.Wk1.cols = C →
      innerLoop c tau t1 m lossLast Wk gradf fuel j st = Except.ok st' →
      st'.H1.rows = m ∧ st'.H1.cols = C ∧ st'.H2.rows = C ∧
        st'.H2.cols = R - m ∧ st'.Wk1.rows = R ∧ st'.Wk1.cols = C := by
  intro fuel
  induction fuel with
  | zero =>
    intro j st st' h1 h2 h3 h4 h5 h6 hrun
    rw [innerLoop] at hrun
    by_cases hc : FgtB st.fk1 (acceptBound lossLast st.L gradf st.Wk1 Wk tau)
    · rw [if_pos hc] at hrun
      exact absurd hrun (by simp)
    · rw [if_neg hc] at hrun
      cases hrun
      exact ⟨h1, h2, h3, h4, h5, h6⟩
  | succ fuel ih =>
    intro j st st' h1 h2 h3 h4 h5 h6 hrun
    rw [innerLoop] at hrun
    by_cases hc : FgtB st.fk1 (acceptBound lossLast st.L gradf st.Wk1 Wk tau)
    · rw [if_pos hc] at hrun
      by_cases hov : c.rho1 ^ (j + 1) > floatMax ∨ (j + 1) = c.threshold
      · rw [if_pos hov] at hrun
        exact absurd hrun (by simp)
      · rw [if_neg hov] at hrun
        refine ih (j + 1) _ st' ?_ ?_ ?_ ?_ ?_ ?_ hrun <;>
          simp [innerRecompute, Mat.rowsTo, Mat.rowsFrom, Mat.T, candW,
            gradStep, hR, hC]
    · rw [if_neg hc] at hrun
      cases hrun
      exact ⟨h1, h2, h3, h4, h5, h6⟩

/-- C6 amended: the stacked state `W = vstack(H1, H2.T)` has shape
`(m+n)` by `k` (not `(m+k)` by `k`); throughout a run the candidate split
gives `H1` the first `m` rows (shape `m` by `k`) and `H2` the remaining
`n` rows transposed (shape `k` by `n`), and one accepted outer step
preserves these shapes. -/
theorem claim6_theorem :
    (∀ (H1 H2 : Mat) (m n k : ℕ), H1.rows = m → H1.cols = k → H2.rows = k →
      H2.cols = n → (stackW H1 H2).rows = m + n ∧ (stackW H1 H2).cols = k) ∧
    (∀ (W : Mat) (m : ℕ), (W.rowsTo m).rows = m ∧ (W.rowsTo m).cols = W.cols ∧
      ((W.rowsFrom m).T).rows = W.cols ∧ ((W.rowsFrom m).T).cols = W.rows - m) ∧
    (∀ (c : Ctx) (tau t1 : F) (s s' : RunState) (b : Bool) (m n k : ℕ),
      s.Wk.rows = m + n → s.Wk.cols = k →
      outerStep c tau t1 m n s = Except.ok (s', b) →
      s'.H1.rows = m ∧ s'.H1.cols = k ∧ s'.H2.rows = k ∧ s'.H2.cols = n ∧
        s'.Wk.rows = m + n ∧ s'.Wk.cols = k) := by
  refine ⟨?_, ?_, ?_⟩
  · intro H1 H2 m n k e1 e2 e3 e4
    simp [stackW, Mat.vstack, Mat.T, e1, e2, e4]
  · intro W m
    simp [Mat.rowsTo, Mat.rowsFrom, Mat.T]
  · intro c tau t1 s s' b m n k hR hC hrun
    rw [outerStep] at hrun
    have hcr : (candidateW c tau t1 s).rows = m + n := by
      simp [candidateW, candW, gradStep, hR]
    have hcc : (candidateW c tau t1 s).cols = k := by
      simp [candidateW, candW, gradStep, hC]
    cases hinner : innerLoop c tau t1 m (s.loss.getLastD none) s.Wk
        (gradfW c.mask c.A c.mu s.H1 s.H2) c.threshold 0
        (startInner c tau t1 m s) with
    | error f =>
      rw [hinner] at hrun
      exact absurd hrun (by simp)
    | ok st =>
      rw [hinner] at hrun
      have hst := innerLoop_shapes c tau t1 m (s.loss.getLastD none) s.Wk
        (gradfW c.mask c.A c.mu s.H1 s.H2) (m + n) k hR hC c.threshold 0 _ st
        (by simp [startInner]) (by simp [startInner, hcc])
        (by simp [startInner, hcc])
        (by simp [startInner, Mat.rowsFrom, Mat.T, hcr]) (by simp [startInner, hcr])
        (by simp [startInner, hcc]) hinner
      obtain ⟨e1, e2, e3, e4, e5, e6⟩ := hst
      cases hrun
      refine ⟨e1, e2, e3, ?_, e5, e6⟩
      show st.H2.cols = n
      rw [e4]
      omega

/-- C6 counterexample: with the spec's own concrete shapes `m = 4`,
`n = 3`, `k = 2`, the stacked state has 7 = m + n rows, not
`m + k = 6`, and the split-back hands `H2` the remaining 3 = n rows, not
k = 2. -/
theorem claim6_counterexample :
    (stackW (cmat 4 2 0) (cmat 2 3 0)).rows = 7 ∧
    (stackW (cmat 4 2 0) (cmat 2 3 0)).rows ≠ 4 + 2 ∧
    ((stackW (cmat 4 2 0) (cmat 2 3 0)).rowsFrom 4).rows = 3 ∧
    ((stackW (cmat 4 2 0) (cmat 2 3 0)).rowsFrom 4).rows ≠ 2 := by
  refine ⟨rfl, by norm_num [stackW, Mat.vstack, Mat.T], rfl, ?_⟩
  norm_num [stackW, Mat.vstack, Mat.T, Mat.rowsFrom]

/-! Stage evaluation lemmas for the 1 by 1 concrete runs (data matrix
`[[0]]`, full mask `[[1]]`). -/

theorem dot11_entry (H1 H2 : Mat) (u v : ℝ) (h1c : H1.cols = 1)
    (h1 : H1.entry 0 0 = some u) (h2 : H2.entry 0 0 = some v) :
    (H1.dot H2).entry 0 0 = some (u * v) := by
  rw [dot_entry, h1c, Fsum_one, h1, h2, Fmul_some_some, Fadd_some_some]
  norm_num

theorem calcLoss11 (H1 H2 : Mat) (u v : ℝ) (h1c : H1.cols = 1)
    (h1 : H1.entry 0 0 = some u) (h2 : H2.entry 0 0 = some v) :
    calcLoss (cmat 1 1 1) (cmat 1 1 0) H1 H2 = some (u * v * (u * v) / 2) := by
  have hd := dot11_entry H1 H2 u v h1c h1 h2
  have hfs : ((cmat 1 1 1).hmul ((cmat 1 1 0).sub (H1.dot H2))).frobSq =
      some (u * v * (u * v)) := by
    rw [Mat.frobSq]
    simp only [hmul_rows, hmul_cols, cmat_rows, cmat_cols]
    rw [Fsum_one, Fsum_one, hmul_entry, Msub_entry, cmat_entry, cmat_entry, hd]
    simp only [Fsub_some_some, Fmul_some_some, Fadd_some_some]
    congr 1
    ring
  rw [calcLoss, normSq_eval _ _ (mul_self_nonneg (u * v)) hfs, Fmul_some_some]
  congr 1
  ring

theorem frobSq21 (W : Mat) (u v : ℝ) (hr : W.rows = 2) (hc : W.cols = 1)
    (h0 : W.entry 0 0 = some u) (h1 : W.entry 1 0 = some v) :
    W.frobSq = some (u * u + v * v) := by
  rw [Mat.frobSq, hr, hc, Fsum_two, Fsum_one, Fsum_one, h0, h1]
  simp only [Fmul_some_some, Fadd_some_some]
  congr 1
  ring

theorem normSq21 (W : Mat) (u v : ℝ) (hr : W.rows = 2) (hc : W.cols = 1)
    (h0 : W.entry 0 0 = some u) (h1 : W.entry 1 0 = some v) :
    Mat.normSq W = some (u * u + v * v) := by
  exact normSq_eval W _
    (add_nonneg (mul_self_nonneg u) (mul_self_nonneg v))
    (frobSq21 W u v hr hc h0 h1)

theorem gradfW11_dims (mu : ℝ) (H1 H2 : Mat) (h2r : H2.rows = 1) :
    (gradfW (cmat 1 1 1) (cmat 1 1 0) mu H1 H2).rows = 2 ∧
    (gradfW (cmat 1 1 1) (cmat 1 1 0) mu H1 H2).cols = 1 := by
  refine ⟨rfl, ?_⟩
  have h : (gradfW (cmat 1 1 1) (cmat 1 1 0) mu H1 H2).cols = H2.rows := rfl
  rw [h, h2r]

theorem gradfW11_entry0 (mu : ℝ) (H1 H2 : Mat) (u v : ℝ) (h1c : H1.cols = 1)
    (h1 : H1.entry 0 0 = some u) (h2 : H2.entry 0 0 = some v) :
    (gradfW (cmat 1 1 1) (cmat 1 1 0) mu H1 H2).entry 0 0 =
      some (u * v * v + mu * u) := by
  have hd := dot11_entry H1 H2 u v h1c h1 h2
  have hgur : (gradU (cmat 1 1 1) (cmat 1 1 0) mu H1 H2).rows = 1 := rfl
  rw [gradfW, vstack_entry_lt _ _ 0 0 (by rw [hgur]; norm_num)]
  rw [gradU, Madd_entry, dot_entry]
  simp only [hmul_cols, cmat_cols, hmul_entry, Msub_entry, cmat_entry,
    MatT_entry, smul_entry]
  rw [Fsum_one, hd, h2, h1]
  simp only [Fsub_some_some, Fmul_some_some, Fadd_some_some]
  congr 1
  ring

theorem gradfW11_entry1 (mu : ℝ) (H1 H2 : Mat) (u v : ℝ)
    (h1c : H1.cols = 1) (h2r : H2.rows = 1)
    (h1 : H1.entry 0 0 = some u) (h2 : H2.entry 0 0 = some v) :
    (gradfW (cmat 1 1 1) (cmat 1 1 0) mu H1 H2).entry 1 0 =
      some (v * u * u + mu * v) := by
  have hgur : (gradU (cmat 1 1 1) (cmat 1 1 0) mu H1 H2).rows = 1 := rfl
  rw [gradfW, vstack_entry_ge _ _ 1 0 (by rw [hgur]; norm_num)]
  have hd : (H2.T.dot H1.T).entry 0 0 = some (v * u) := by
    rw [dot_entry]
    simp only [MatT_cols, MatT_entry]
    rw [h2r, Fsum_one, h2, h1, Fmul_some_some, Fadd_some_some]
    norm_num
  have h10 : (1 : ℕ) - 1 = 0 := by norm_num
  rw [hgur, h10, gradV, Madd_entry, dot_entry]
  simp only [hmul_cols, MatT_cols, cmat_rows, hmul_entry, MatT_entry,
    Msub_entry, cmat_entry, smul_entry]
  rw [Fsum_one, hd, h1, h2]
  simp only [Fsub_some_some, Fmul_some_some, Fadd_some_some]
  congr 1
  ring

theorem gradStep_dims (tau' : F) (alpha : ℝ) (Wk gradf : Mat) :
    (gradStep tau' alpha Wk gradf).rows = Wk.rows ∧
    (gradStep tau' alpha Wk gradf).cols = Wk.cols := by
  constructor <;> rfl

theorem gradStep_entry (tau' : F) (alpha : ℝ) (Wk gradf : Mat)
    (r2 tv uv g : ℝ) (i : ℕ) (hn : Mat.normSq Wk = some r2)
    (ht : tau' = some tv) (he : Wk.entry i 0 = some uv)
    (hg : gradf.entry i 0 = some g) :
    (gradStep tau' alpha Wk gradf).entry i 0 =
      some ((r2 + tv) * uv - alpha * g) := by
  rw [gradStep, Msub_entry, smul_entry, smul_entry, hn, ht, he, hg]
  simp only [Fadd_some_some, Fmul_some_some, Fsub_some_some]

theorem tau2F_eval (tau' : F) (grad : Mat) (tv G : ℝ) (ht : tau' = some tv)
    (hG : Mat.normSq grad = some G) :
    tau2F tau' grad = some ((-2 * (tv * (tv * tv)) - 27 * G) / 27 / 2) := by
  rw [tau2F, ht, hG, Fpow3_some, Fmul_some_some, Fmul_some_some, Fsub_some_some,
    Fdiv_some_some _ 27 (by norm_num), Fdiv_some_some _ 2 (by norm_num)]

theorem stepT1_t1zero (q : ℝ) (hq : q ≤ 0) :
    stepT1 (some q) (some 0) = some (-(2 * q)) := by
  rw [stepT1, step2Disc, Fpow2_some, Fpow3_some, Fadd_some_some, Fneg_some]
  rw [Fsqrt_some_sq _ (-q) (by linarith) (by ring), Fadd_some_some]
  congr 1
  ring

theorem stepT2_t1zero (q : ℝ) (hq : q ≤ 0) :
    stepT2 (some q) (some 0) = some 0 := by
  rw [stepT2, step2Disc, Fpow2_some, Fpow3_some, Fadd_some_some, Fneg_some]
  rw [Fsqrt_some_sq _ (-q) (by linarith) (by ring), Fsub_some_some]
  congr 1
  ring

theorem tOf_eval (Tv tval : ℝ) (h0 : 0 ≤ tval) (hT : Tv = tval ^ 3) :
    tOf (some 0) (some Tv) (some 0) = some tval := by
  rw [tOf, Fdiv_some_some 0 3 (by norm_num), Fnthr3_cube Tv tval h0 hT,
    Fnthr3_zero, Fadd_some_some, Fadd_some_some]
  congr 1
  ring

theorem candW_dims (grad : Mat) (t : F) :
    (candW grad t).rows = grad.rows ∧ (candW grad t).cols = grad.cols := by
  constructor <;> rfl

theorem candW_entry (grad : Mat) (tval g : ℝ) (i : ℕ) (htv : tval ≠ 0)
    (hg : grad.entry i 0 = some g) :
    (candW grad (some tval)).entry i 0 = some (1 / tval * g) := by
  rw [candW, smul_entry, Fdiv_some_some 1 tval htv, hg, Fmul_some_some]

theorem innerProd11 (gradf D : Mat) (g1 g2 d1 d2 : ℝ)
    (hgr : gradf.rows = 2) (hgc : gradf.cols = 1) (hdc : D.cols = 1)
    (hg1 : gradf.entry 0 0 = some g1) (hg2 : gradf.entry 1 0 = some g2)
    (hd1 : D.entry 0 0 = some d1) (hd2 : D.entry 1 0 = some d2) :
    Mat.sumAll (gradf.T.dot D) = some (g1 * d1 + g2 * d2) := by
  rw [Mat.sumAll]
  simp only [dot_rows, dot_cols, MatT_rows, hgc, hdc]
  rw [Fsum_one, Fsum_one, dot_entry]
  simp only [MatT_cols, MatT_entry, hgr]
  rw [Fsum_two, hg1, hg2, hd1, hd2]
  simp only [Fmul_some_some, Fadd_some_some]
  congr 1
  ring

theorem getLastD_concat (l : List F) (x d : F) : (l ++ [x]).getLastD d = x := by
  simp [List.getLastD_eq_getLast?, List.getLast?_concat]

theorem func_h21 (W : Mat) (S : ℝ) (h0 : 0 ≤ S) (hS : W.frobSq = some S) :
    func_h W (some 0) = some (S * S / 4) := by
  rw [func_h, Mat.frobNorm, hS, Fpow2_sqrt S h0]
  rw [Fpow2_some, Fmul_some_some, Fmul_some_some, Fmul_some_some, Fadd_some_some]
  congr 1
  ring

theorem Dh21 (W1 W2 : Mat) (w1 w2 u v : ℝ)
    (h1r : W1.rows = 2) (h1c : W1.cols = 1) (h2r : W2.rows = 2)
    (h2c : W2.cols = 1)
    (e10 : W1.entry 0 0 = some w1) (e11 : W1.entry 1 0 = some w2)
    (e20 : W2.entry 0 0 = some u) (e21 : W2.entry 1 0 = some v) :
    D_h W1 W2 (some 0) =
      some ((w1 * w1 + w2 * w2) * (w1 * w1 + w2 * w2) / 4 -
        (u * u + v * v) * (u * u + v * v) / 4 -
        ((u * u + v * v) * u * (w1 - u) + (u * u + v * v) * v * (w2 - v))) := by
  have hS1 := frobSq21 W1 w1 w2 h1r h1c e10 e11
  have hS2 := frobSq21 W2 u v h2r h2c e20 e21
  have hn2 := normSq_eval W2 _
    (add_nonneg (mul_self_nonneg u) (mul_self_nonneg v)) hS2
  have hf1 := func_h21 W1 _
    (add_nonneg (mul_self_nonneg w1) (mul_self_nonneg w2)) hS1
  have hf2 := func_h21 W2 _
    (add_nonneg (mul_self_nonneg u) (mul_self_nonneg v)) hS2
  have hdot : Mat.sumAll
      ((W2.smul (Fadd (Mat.normSq W2) (some 0))).T.dot (W1.sub W2)) =
      some ((u * u + v * v + 0) * u * (w1 - u) +
        (u * u + v * v + 0) * v * (w2 - v)) := by
    refine innerProd11 _ _ ((u * u + v * v + 0) * u) ((u * u + v * v + 0) * v)
      (w1 - u) (w2 - v) ?_ ?_ ?_ ?_ ?_ ?_ ?_
    · simp [h2r]
    · simp [h2c]
    · simp [h1c]
    · rw [smul_entry, hn2, e20, Fadd_some_some, Fmul_some_some]
    · rw [smul_entry, hn2, e21, Fadd_some_some, Fmul_some_some]
    · rw [Msub_entry, e10, e20, Fsub_some_some]
    · rw [Msub_entry, e11, e21, Fsub_some_some]
  rw [D_h, hf1, hf2, hdot, Fsub_some_some, Fsub_some_some]
  congr 1
  ring

theorem acceptBound_eval (lossL L : ℝ) (gradf Wk1 Wk : Mat) (tau' : F)
    (iv dv : ℝ)
    (hi : Mat.sumAll (gradf.T.dot (Wk1.sub Wk)) = some iv)
    (hd : D_h Wk1 Wk tau' = some dv) :
    acceptBound (some lossL) L gradf Wk1 Wk tau' =
      some (lossL + iv + L * dv) := by
  rw [acceptBound, hi, hd, Fmul_some_some, Fadd_some_some, Fadd_some_some]

theorem innerLoop_stop (c : Ctx) (tau t1 : F) (m : ℕ) (lossLast : F)
    (Wk gradf : Mat) (fuel j : ℕ) (st : InnerSt)
    (h : FgtB st.fk1 (acceptBound lossLast st.L gradf st.Wk1 Wk tau) = false) :
    innerLoop c tau t1 m lossLast Wk gradf fuel j st = Except.ok st := by
  cases fuel with
  | zero => rw [innerLoop, h]; simp
  | succ f => rw [innerLoop, h]; simp

theorem innerLoop_overflow_step (c : Ctx) (tau t1 : F) (m : ℕ) (lossLast : F)
    (Wk gradf : Mat) (fuel j : ℕ) (st : InnerSt)
    (h : FgtB st.fk1 (acceptBound lossLast st.L gradf st.Wk1 Wk tau) = true)
    (hov : c.rho1 ^ (j + 1) > floatMax ∨ (j + 1) = c.threshold) :
    innerLoop c tau t1 m lossLast Wk gradf (fuel + 1) j st =
      Except.error ⟨MCErrKind.overflow, st.H1, st.H2⟩ := by
  rw [innerLoop, h]
  simp [hov]

theorem outerStep_of_inner_ok (c : Ctx) (tau t1 : F) (m n : ℕ) (s : RunState)
    (st : InnerSt)
    (h : innerLoop c tau t1 m (s.loss.getLastD none) s.Wk
      (gradfW c.mask c.A c.mu s.H1 s.H2) c.threshold 0
      (startInner c tau t1 m s) = Except.ok st) :
    outerStep c tau t1 m n s =
      Except.ok (commitState c m n s st, Fisnan st.fk1) := by
  rw [outerStep, h]

theorem outerStep_of_inner_error (c : Ctx) (tau t1 : F) (m n : ℕ)
    (s : RunState) (f : MCFail)
    (h : innerLoop c tau t1 m (s.loss.getLastD none) s.Wk
      (gradfW c.mask c.A c.mu s.H1 s.H2) c.threshold 0
      (startInner c tau t1 m s) = Except.error f) :
    outerStep c tau t1 m n s = Except.error f := by
  rw [outerStep, h]

theorem outerLoop_error_step (c : Ctx) (tau t1 : F) (m n fuel i : ℕ)
    (s : RunState) (f : MCFail)
    (h : outerStep c tau t1 m n s = Except.error f) :
    outerLoop c tau t1 m n (fuel + 1) i s = Except.error f := by
  rw [outerLoop, h]

theorem outerLoop_ok_step (c : Ctx) (tau t1 : F) (m n fuel i : ℕ)
    (s s' : RunState) (h : outerStep c tau t1 m n s = Except.ok (s', false)) :
    outerLoop c tau t1 m n (fuel + 1) i s =
      outerLoop c tau t1 m n fuel (i + 1) s' := by
  rw [outerLoop, h]
  simp

theorem outerLoop_nan_step (c : Ctx) (tau t1 : F) (m n fuel i : ℕ)
    (s s' : RunState) (h : outerStep c tau t1 m n s = Except.ok (s', true)) :
    outerLoop c tau t1 m n (fuel + 1) i s = Except.ok (s', i) := by
  rw [outerLoop, h]
  simp

theorem outerLoop_zero (c : Ctx) (tau t1 : F) (m n i : ℕ) (s : RunState) :
    outerLoop c tau t1 m n 0 i s = Except.ok (s, i - 1) := by
  rw [outerLoop]

theorem setupTau_zero : setupTau (cmat 1 1 0) = some 0 := by
  rw [setupTau, Mat.frobNorm, frobSq_cmat11,
    Fsqrt_some_sq (0 * 0 : ℝ) 0 le_rfl (by norm_num),
    Fdiv_some_some 0 3 (by norm_num)]
  congr 1
  norm_num

theorem setupT1_zero : setupT1 (cmat 1 1 0) = some 0 := by
  rw [setupT1, setupTau1, setupTau_zero, Fpow2_some, Fneg_some,
    Fdiv_some_some _ 3 (by norm_num), Fdiv_some_some _ 3 (by norm_num)]
  congr 1
  norm_num

/-- Full evaluation of run R2: the sufficient-decrease test rejects the
step-2 candidate `(-13/5, 9/5)`, the first retry hits the backtracking
budget `threshold = 1`, and the run aborts with the overflow error while
the optimizer's factor fields still hold the rejected candidate. -/
theorem R2_run :
    cand2.entry 0 0 = some (-(13 / 5)) ∧
    cand2.entry 1 0 = some (9 / 5) ∧
    MCrun ctxR2 (cmat 1 1 1) (cmat 1 1 3) =
      Except.error ⟨MCErrKind.overflow, cand2.rowsTo 1, (cand2.rowsFrom 1).T⟩ := by
  have hWr : s2.Wk.rows = 2 := rfl
  have hWc : s2.Wk.cols = 1 := rfl
  have hW0 : s2.Wk.entry 0 0 = some 1 := by
    show (stackW (cmat 1 1 1) (cmat 1 1 3)).entry 0 0 = some 1
    rw [stackW, vstack_entry_lt _ _ 0 0 (by simp)]
    rfl
  have hW1 : s2.Wk.entry 1 0 = some 3 := by
    show (stackW (cmat 1 1 1) (cmat 1 1 3)).entry 1 0 = some 3
    rw [stackW, vstack_entry_ge _ _ 1 0 (by simp)]
    rfl
  have halpha : s2.alpha = 4 := by
    show (1 : ℝ) / ctxR2.L0 = 4
    show (1 : ℝ) / (1 / 4) = 4
    norm_num
  have hL : s2.L = 1 / 4 := rfl
  have hg0 : (gradfW ctxR2.mask ctxR2.A ctxR2.mu s2.H1 s2.H2).entry 0 0 =
      some 9 := by
    show (gradfW (cmat 1 1 1) (cmat 1 1 0) 0 (cmat 1 1 1) (cmat 1 1 3)).entry 0 0 =
      some 9
    rw [gradfW11_entry0 0 (cmat 1 1 1) (cmat 1 1 3) 1 3 rfl rfl rfl]
    congr 1
    norm_num
  have hg1 : (gradfW ctxR2.mask ctxR2.A ctxR2.mu s2.H1 s2.H2).entry 1 0 =
      some 3 := by
    show (gradfW (cmat 1 1 1) (cmat 1 1 0) 0 (cmat 1 1 1) (cmat 1 1 3)).entry 1 0 =
      some 3
    rw [gradfW11_entry1 0 (cmat 1 1 1) (cmat 1 1 3) 1 3 rfl rfl rfl rfl]
    congr 1
    norm_num
  have hr2 : Mat.normSq s2.Wk = some 10 := by
    rw [normSq21 s2.Wk 1 3 hWr hWc hW0 hW1]
    congr 1
    norm_num
  have hge0 : (gradStep (some 0) s2.alpha s2.Wk
      (gradfW ctxR2.mask ctxR2.A ctxR2.mu s2.H1 s2.H2)).entry 0 0 =
      some (-26) := by
    rw [gradStep_entry (some 0) s2.alpha s2.Wk _ 10 0 1 9 0 hr2 rfl hW0 hg0,
      halpha]
    congr 1
    norm_num
  have hge1 : (gradStep (some 0) s2.alpha s2.Wk
      (gradfW ctxR2.mask ctxR2.A ctxR2.mu s2.H1 s2.H2)).entry 1 0 =
      some 18 := by
    rw [gradStep_entry (some 0) s2.alpha s2.Wk _ 10 0 3 3 1 hr2 rfl hW1 hg1,
      halpha]
    congr 1
    norm_num
  have hgradr : (gradStep (some 0) s2.alpha s2.Wk
      (gradfW ctxR2.mask ctxR2.A ctxR2.mu s2.H1 s2.H2)).rows = 2 := by
    rw [(gradStep_dims _ _ _ _).1, hWr]
  have hgradc : (gradStep (some 0) s2.alpha s2.Wk
      (gradfW ctxR2.mask ctxR2.A ctxR2.mu s2.H1 s2.H2)).cols = 1 := by
    rw [(gradStep_dims _ _ _ _).2, hWc]
  have hG : Mat.normSq (gradStep (some 0) s2.alpha s2.Wk
      (gradfW ctxR2.mask ctxR2.A ctxR2.mu s2.H1 s2.H2)) = some 1000 := by
    rw [normSq21 _ (-26) 18 hgradr hgradc hge0 hge1]
    congr 1
    norm_num
  have htau2 : tau2F (some 0) (gradStep (some 0) s2.alpha s2.Wk
      (gradfW ctxR2.mask ctxR2.A ctxR2.mu s2.H1 s2.H2)) = some (-500) := by
    rw [tau2F_eval _ _ 0 1000 rfl hG]
    congr 1
    norm_num
  have hT1 : stepT1 (some (-500)) (some 0) = some 1000 := by
    rw [stepT1_t1zero (-500) (by norm_num)]
    congr 1
    norm_num
  have hT2 : stepT2 (some (-500)) (some 0) = some 0 :=
    stepT2_t1zero (-500) (by norm_num)
  have ht : tOf (some 0) (some 1000) (some 0) = some 10 :=
    tOf_eval 1000 10 (by norm_num) (by norm_num)
  have hc0 : cand2.entry 0 0 = some (-(13 / 5)) := by
    show (candidateW ctxR2 (some 0) (some 0) s2).entry 0 0 = some (-(13 / 5))
    simp only [candidateW]
    rw [htau2, hT1, hT2, ht, candW_entry _ 10 (-26) 0 (by norm_num) hge0]
    congr 1
    norm_num
  have hc1 : cand2.entry 1 0 = some (9 / 5) := by
    show (candidateW ctxR2 (some 0) (some 0) s2).entry 1 0 = some (9 / 5)
    simp only [candidateW]
    rw [htau2, hT1, hT2, ht, candW_entry _ 10 18 1 (by norm_num) hge1]
    congr 1
    norm_num
  have hcr : cand2.rows = 2 := rfl
  have hcc : cand2.cols = 1 := rfl
  have he1 : (cand2.rowsTo 1).entry 0 0 = some (-(13 / 5)) := by
    rw [rowsTo_entry]
    exact hc0
  have he2 : ((cand2.rowsFrom 1).T).entry 0 0 = some (9 / 5) := by
    rw [MatT_entry, rowsFrom_entry]
    exact hc1
  have hfk : calcLoss ctxR2.mask ctxR2.A (cand2.rowsTo 1)
      ((cand2.rowsFrom 1).T) = some (13689 / 1250) := by
    show calcLoss (cmat 1 1 1) (cmat 1 1 0) (cand2.rowsTo 1)
      ((cand2.rowsFrom 1).T) = some (13689 / 1250)
    rw [calcLoss11 _ _ (-(13 / 5)) (9 / 5) rfl he1 he2]
    congr 1
    norm_num
  have hsub0 : (cand2.sub s2.Wk).entry 0 0 = some (-(13 / 5) - 1) := by
    rw [Msub_entry, hc0, hW0, Fsub_some_some]
  have hsub1 : (cand2.sub s2.Wk).entry 1 0 = some (9 / 5 - 3) := by
    rw [Msub_entry, hc1, hW1, Fsub_some_some]
  have hip : Mat.sumAll ((gradfW ctxR2.mask ctxR2.A ctxR2.mu s2.H1 s2.H2).T.dot
      (cand2.sub s2.Wk)) = some (-36) := by
    rw [innerProd11 _ _ 9 3 (-(13 / 5) - 1) (9 / 5 - 3) rfl rfl rfl hg0 hg1
      hsub0 hsub1]
    congr 1
    norm_num
  have hdh : D_h cand2 s2.Wk (some 0) = some 72 := by
    rw [Dh21 cand2 s2.Wk (-(13 / 5)) (9 / 5) 1 3 hcr hcc hWr hWc hc0 hc1 hW0 hW1]
    congr 1
    norm_num
  have hcl : calcLoss ctxR2.mask ctxR2.A (cmat 1 1 1) (cmat 1 1 3) =
      some (9 / 2) := by
    show calcLoss (cmat 1 1 1) (cmat 1 1 0) (cmat 1 1 1) (cmat 1 1 3) =
      some (9 / 2)
    rw [calcLoss11 _ _ 1 3 rfl rfl rfl]
    congr 1
    norm_num
  have hmn : ((ctxR2.A.rows * ctxR2.A.cols : ℕ) : ℝ) = 1 := by
    show (((1 * 1 : ℕ)) : ℝ) = 1
    norm_num
  have hll : s2.loss.getLastD none = some (9 / 2) := by
    have h2 : s2.loss = [Fdiv (calcLoss ctxR2.mask ctxR2.A (cmat 1 1 1)
      (cmat 1 1 3)) (some ((ctxR2.A.rows * ctxR2.A.cols : ℕ) : ℝ))] := rfl
    rw [h2, hcl, hmn, Fdiv_some_some _ 1 (by norm_num)]
    rw [List.getLastD_cons, List.getLastD_nil]
    congr 1
    norm_num
  have hbound : acceptBound (s2.loss.getLastD none) s2.L
      (gradfW ctxR2.mask ctxR2.A ctxR2.mu s2.H1 s2.H2) cand2 s2.Wk (some 0) =
      some (-(27 / 2)) := by
    rw [hll, hL, acceptBound_eval (9 / 2) (1 / 4) _ _ _ _ (-36) 72 hip hdh]
    congr 1
    norm_num
  have htest : FgtB st2.fk1 (acceptBound (s2.loss.getLastD none) st2.L
      (gradfW ctxR2.mask ctxR2.A ctxR2.mu s2.H1 s2.H2) st2.Wk1 s2.Wk
      (some 0)) = true := by
    have e1 : st2.fk1 = calcLoss ctxR2.mask ctxR2.A (cand2.rowsTo 1)
      ((cand2.rowsFrom 1).T) := rfl
    have e2 : st2.L = s2.L := rfl
    have e3 : st2.Wk1 = cand2 := rfl
    rw [e1, e2, e3, hfk, hbound]
    exact FgtB_of_lt _ _ (by norm_num)
  have hIL : innerLoop ctxR2 (some 0) (some 0) 1 (s2.loss.getLastD none) s2.Wk
      (gradfW ctxR2.mask ctxR2.A ctxR2.mu s2.H1 s2.H2) ctxR2.threshold 0 st2 =
      Except.error ⟨MCErrKind.overflow, st2.H1, st2.H2⟩ := by
    exact innerLoop_overflow_step ctxR2 (some 0) (some 0) 1 _ s2.Wk _ 0 0 st2
      htest (Or.inr rfl)
  have hOS : outerStep ctxR2 (some 0) (some 0) 1 1 s2 =
      Except.error ⟨MCErrKind.overflow, st2.H1, st2.H2⟩ :=
    outerStep_of_inner_error ctxR2 (some 0) (some 0) 1 1 s2 _ hIL
  have hOL : outerLoop ctxR2 (some 0) (some 0) 1 1 1 0 s2 =
      Except.error ⟨MCErrKind.overflow, st2.H1, st2.H2⟩ :=
    outerLoop_error_step ctxR2 (some 0) (some 0) 1 1 0 0 s2 _ hOS
  refine ⟨hc0, hc1, ?_⟩
  rw [MCrun, if_neg (show ¬ctxR2.iterations = 0 from fun h => Nat.one_ne_zero h)]
  have hA : setupTau ctxR2.A = some 0 := setupTau_zero
  have hB : setupT1 ctxR2.A = some 0 := setupT1_zero
  rw [hA, hB, show ctxR2.A.rows = 1 from rfl, show ctxR2.A.cols = 1 from rfl,
    show ctxR2.iterations = 1 from rfl,
    show startState ctxR2 (cmat 1 1 1) (cmat 1 1 3) = s2 from rfl, hOL]
  rfl

/-- C7: (a) whenever the backtracking budget is at least one, the
backtracking sub-loop cannot loop forever: it either accepts a candidate
or aborts with the overflow error; (b) on the concrete run R2, whose
acceptance test never succeeds within its `threshold = 1` attempts, the
whole run aborts with the overflow error and no result record is
returned to the caller. -/
theorem claim7_theorem :
    (∀ (c : Ctx) (tau t1 : F) (m : ℕ) (lossLast : F) (Wk gradf : Mat)
      (fuel j : ℕ) (st : InnerSt), 1 ≤ c.threshold →
      (∃ out, innerLoop c tau t1 m lossLast Wk gradf fuel j st =
        Except.ok out) ∨
      (∃ f, innerLoop c tau t1 m lossLast Wk gradf fuel j st =
        Except.error f ∧ f.kind = MCErrKind.overflow)) ∧
    (∃ f, MCrun ctxR2 (cmat 1 1 1) (cmat 1 1 3) = Except.error f ∧
      f.kind = MCErrKind.overflow) ∧
    (∀ r, MCrun ctxR2 (cmat 1 1 1) (cmat 1 1 3) ≠ Except.ok r) := by
  refine ⟨?_, ?_, ?_⟩
  · intro c tau t1 m lossLast Wk gradf fuel
    induction fuel with
    | zero =>
      intro j st _
      rw [innerLoop]
      by_cases hc : FgtB st.fk1 (acceptBound lossLast st.L gradf st.Wk1 Wk tau)
      · rw [if_pos hc]
        exact Or.inr ⟨_, rfl, rfl⟩
      · rw [if_neg hc]
        exact Or.inl ⟨st, rfl⟩
    | succ fuel ih =>
      intro j st hth
      rw [innerLoop]
      by_cases hc : FgtB st.fk1 (acceptBound lossLast st.L gradf st.Wk1 Wk tau)
      · rw [if_pos hc]
        by_cases hov : c.rho1 ^ (j + 1) > floatMax ∨ (j + 1) = c.threshold
        · rw [if_pos hov]
          exact Or.inr ⟨_, rfl, rfl⟩
        · rw [if_neg hov]
          exact ih (j + 1) _ hth
      · rw [if_neg hc]
        exact Or.inl ⟨st, rfl⟩
  · exact ⟨_, R2_run.2.2, rfl⟩
  · intro r h
    rw [R2_run.2.2] at h
    cases h

/-- C7 witness: part (a) applied at a concrete context with
`threshold = 20` and a concrete sub-loop state. -/
theorem claim7_witness :
    1 ≤ ctxR1.threshold ∧
    ((∃ out, innerLoop ctxR1 (some 0) (some 0) 1 (some 0) (cmat 2 1 0)
        (cmat 2 1 0) 20 0 ⟨1, cmat 1 1 0, cmat 1 1 0, cmat 2 1 0, some 0, false⟩ =
      Except.ok out) ∨
    (∃ f, innerLoop ctxR1 (some 0) (some 0) 1 (some 0) (cmat 2 1 0)
        (cmat 2 1 0) 20 0 ⟨1, cmat 1 1 0, cmat 1 1 0, cmat 2 1 0, some 0, false⟩ =
      Except.error f ∧ f.kind = MCErrKind.overflow)) :=
  ⟨show (1 : ℕ) ≤ 20 by norm_num,
    claim7_theorem.1 ctxR1 (some 0) (some 0) 1 (some 0) (cmat 2 1 0)
      (cmat 2 1 0) 20 0 ⟨1, cmat 1 1 0, cmat 1 1 0, cmat 2 1 0, some 0, false⟩
      (show (1 : ℕ) ≤ 20 by norm_num)⟩

/-- C10: on the aborted run R2 the optimizer's factor fields at the
moment of the overflow raise hold the just-rejected candidate
`(-13/5, 9/5)` from the step-2 proposal, not the factors `(1, 3)` of the
last accepted state: the abort is not atomic with respect to the factor
fields. -/
theorem claim10_theorem :
    ∃ f : MCFail, MCrun ctxR2 (cmat 1 1 1) (cmat 1 1 3) = Except.error f ∧
      f.kind = MCErrKind.overflow ∧
      f.H1.entry 0 0 = some (-(13 / 5)) ∧ f.H2.entry 0 0 = some (9 / 5) ∧
      f.H1.entry 0 0 ≠ (cmat 1 1 1).entry 0 0 ∧
      f.H2.entry 0 0 ≠ (cmat 1 1 3).entry 0 0 := by
  obtain ⟨hc0, hc1, hrun⟩ := R2_run
  have e1 : (cand2.rowsTo 1).entry 0 0 = some (-(13 / 5)) := by
    rw [rowsTo_entry]
    exact hc0
  have e2 : ((cand2.rowsFrom 1).T).entry 0 0 = some (9 / 5) := by
    rw [MatT_entry, rowsFrom_entry]
    exact hc1
  refine ⟨_, hrun, rfl, e1, e2, ?_, ?_⟩
  · rw [e1, cmat_entry]
    intro h
    have := Option.some.inj h
    norm_num at this
  · rw [e2, cmat_entry]
    intro h
    have := Option.some.inj h
    norm_num at this

/-- Evaluation of R1's first outer iteration: the step-2 candidate is
`(9/10, 9/10)`, its loss `6561/20000` passes the sufficient-decrease test
at once, and the sub-loop accepts without backtracking. -/
theorem R1_eval0 :
    st1a.fk1 = some (6561 / 20000) ∧
    st1a.Wk1.entry 0 0 = some (9 / 10) ∧
    st1a.Wk1.entry 1 0 = some (9 / 10) ∧
    innerLoop ctxR1 (some 0) (some 0) 1 (s1a.loss.getLastD none) s1a.Wk
      (gradfW ctxR1.mask ctxR1.A ctxR1.mu s1a.H1 s1a.H2) ctxR1.threshold 0
      st1a = Except.ok st1a := by
  have hWr : s1a.Wk.rows = 2 := rfl
  have hWc : s1a.Wk.cols = 1 := rfl
  have hW0 : s1a.Wk.entry 0 0 = some 1 := by
    show (stackW (cmat 1 1 1) (cmat 1 1 1)).entry 0 0 = some 1
    rw [stackW, vstack_entry_lt _ _ 0 0 (by simp)]
    rfl
  have hW1 : s1a.Wk.entry 1 0 = some 1 := by
    show (stackW (cmat 1 1 1) (cmat 1 1 1)).entry 1 0 = some 1
    rw [stackW, vstack_entry_ge _ _ 1 0 (by simp)]
    rfl
  have halpha : s1a.alpha = 271 / 500 := by
    show (1 : ℝ) / ctxR1.L0 = 271 / 500
    show (1 : ℝ) / (500 / 271) = 271 / 500
    norm_num
  have hL : s1a.L = 500 / 271 := rfl
  have hg0 : (gradfW ctxR1.mask ctxR1.A ctxR1.mu s1a.H1 s1a.H2).entry 0 0 =
      some 1 := by
    show (gradfW (cmat 1 1 1) (cmat 1 1 0) 0 (cmat 1 1 1) (cmat 1 1 1)).entry 0 0 =
      some 1
    rw [gradfW11_entry0 0 (cmat 1 1 1) (cmat 1 1 1) 1 1 rfl rfl rfl]
    congr 1
    norm_num
  have hg1 : (gradfW ctxR1.mask ctxR1.A ctxR1.mu s1a.H1 s1a.H2).entry 1 0 =
      some 1 := by
    show (gradfW (cmat 1 1 1) (cmat 1 1 0) 0 (cmat 1 1 1) (cmat 1 1 1)).entry 1 0 =
      some 1
    rw [gradfW11_entry1 0 (cmat 1 1 1) (cmat 1 1 1) 1 1 rfl rfl rfl rfl]
    congr 1
    norm_num
  have hr2 : Mat.normSq s1a.Wk = some 2 := by
    rw [normSq21 s1a.Wk 1 1 hWr hWc hW0 hW1]
    congr 1
    norm_num
  have hge0 : (gradStep (some 0) s1a.alpha s1a.Wk
      (gradfW ctxR1.mask ctxR1.A ctxR1.mu s1a.H1 s1a.H2)).entry 0 0 =
      some (729 / 500) := by
    rw [gradStep_entry (some 0) s1a.alpha s1a.Wk _ 2 0 1 1 0 hr2 rfl hW0 hg0,
      halpha]
    congr 1
    norm_num
  have hge1 : (gradStep (some 0) s1a.alpha s1a.Wk
      (gradfW ctxR1.mask ctxR1.A ctxR1.mu s1a.H1 s1a.H2)).entry 1 0 =
      some (729 / 500) := by
    rw [gradStep_entry (some 0) s1a.alpha s1a.Wk _ 2 0 1 1 1 hr2 rfl hW1 hg1,
      halpha]
    congr 1
    norm_num
  have hgradr : (gradStep (some 0) s1a.alpha s1a.Wk
      (gradfW ctxR1.mask ctxR1.A ctxR1.mu s1a.H1 s1a.H2)).rows = 2 := by
    rw [(gradStep_dims _ _ _ _).1, hWr]
  have hgradc : (gradStep (some 0) s1a.alpha s1a.Wk
      (gradfW ctxR1.mask ctxR1.A ctxR1.mu s1a.H1 s1a.H2)).cols = 1 := by
    rw [(gradStep_dims _ _ _ _).2, hWc]
  have hG : Mat.normSq (gradStep (some 0) s1a.alpha s1a.Wk
      (gradfW ctxR1.mask ctxR1.A ctxR1.mu s1a.H1 s1a.H2)) =
      some (531441 / 125000) := by
    rw [normSq21 _ (729 / 500) (729 / 500) hgradr hgradc hge0 hge1]
    congr 1
    norm_num
  have htau2 : tau2F (some 0) (gradStep (some 0) s1a.alpha s1a.Wk
      (gradfW ctxR1.mask ctxR1.A ctxR1.mu s1a.H1 s1a.H2)) =
      some (-(531441 / 250000)) := by
    rw [tau2F_eval _ _ 0 (531441 / 125000) rfl hG]
    congr 1
    norm_num
  have hT1 : stepT1 (some (-(531441 / 250000))) (some 0) =
      some (531441 / 125000) := by
    rw [stepT1_t1zero (-(531441 / 250000)) (by norm_num)]
    congr 1
    norm_num
  have hT2 : stepT2 (some (-(531441 / 250000))) (some 0) = some 0 :=
    stepT2_t1zero (-(531441 / 250000)) (by norm_num)
  have ht : tOf (some 0) (some (531441 / 125000)) (some 0) = some (81 / 50) :=
    tOf_eval (531441 / 125000) (81 / 50) (by norm_num) (by norm_num)
  have hc0 : st1a.Wk1.entry 0 0 = some (9 / 10) := by
    show (candidateW ctxR1 (some 0) (some 0) s1a).entry 0 0 = some (9 / 10)
    simp only [candidateW]
    rw [htau2, hT1, hT2, ht, candW_entry _ (81 / 50) (729 / 500) 0
      (by norm_num) hge0]
    congr 1
    norm_num
  have hc1 : st1a.Wk1.entry 1 0 = some (9 / 10) := by
    show (candidateW ctxR1 (some 0) (some 0) s1a).entry 1 0 = some (9 / 10)
    simp only [candidateW]
    rw [htau2, hT1, hT2, ht, candW_entry _ (81 / 50) (729 / 500) 1
      (by norm_num) hge1]
    congr 1
    norm_num
  have hcr : st1a.Wk1.rows = 2 := rfl
  have hcc : st1a.Wk1.cols = 1 := rfl
  have he1 : (st1a.Wk1.rowsTo 1).entry 0 0 = some (9 / 10) := by
    rw [rowsTo_entry]
    exact hc0
  have he2 : ((st1a.Wk1.rowsFrom 1).T).entry 0 0 = some (9 / 10) := by
    rw [MatT_entry, rowsFrom_entry]
    exact hc1
  have hfk : st1a.fk1 = some (6561 / 20000) := by
    show calcLoss ctxR1.mask ctxR1.A (st1a.Wk1.rowsTo 1)
      ((st1a.Wk1.rowsFrom 1).T) = some (6561 / 20000)
    show calcLoss (cmat 1 1 1) (cmat 1 1 0) (st1a.Wk1.rowsTo 1)
      ((st1a.Wk1.rowsFrom 1).T) = some (6561 / 20000)
    rw [calcLoss11 _ _ (9 / 10) (9 / 10) rfl he1 he2]
    congr 1
    norm_num
  have hsub0 : (st1a.Wk1.sub s1a.Wk).entry 0 0 = some (9 / 10 - 1) := by
    rw [Msub_entry, hc0, hW0, Fsub_some_some]
  have hsub1 : (st1a.Wk1.sub s1a.Wk).entry 1 0 = some (9 / 10 - 1) := by
    rw [Msub_entry, hc1, hW1, Fsub_some_some]
  have hip : Mat.sumAll ((gradfW ctxR1.mask ctxR1.A ctxR1.mu s1a.H1
      s1a.H2).T.dot (st1a.Wk1.sub s1a.Wk)) = some (-(1 / 5)) := by
    rw [innerProd11 _ _ 1 1 (9 / 10 - 1) (9 / 10 - 1) rfl rfl rfl hg0 hg1
      hsub0 hsub1]
    congr 1
    norm_num
  have hdh : D_h st1a.Wk1 s1a.Wk (some 0) = some (561 / 10000) := by
    rw [Dh21 st1a.Wk1 s1a.Wk (9 / 10) (9 / 10) 1 1 hcr hcc hWr hWc hc0 hc1
      hW0 hW1]
    congr 1
    norm_num
  have hcl : calcLoss ctxR1.mask ctxR1.A (cmat 1 1 1) (cmat 1 1 1) =
      some (1 / 2) := by
    show calcLoss (cmat 1 1 1) (cmat 1 1 0) (cmat 1 1 1) (cmat 1 1 1) =
      some (1 / 2)
    rw [calcLoss11 _ _ 1 1 rfl rfl rfl]
    congr 1
    norm_num
  have hmn : ((ctxR1.A.rows * ctxR1.A.cols : ℕ) : ℝ) = 1 := by
    show (((1 * 1 : ℕ)) : ℝ) = 1
    norm_num
  have hll : s1a.loss.getLastD none = some (1 / 2) := by
    have h2 : s1a.loss = [Fdiv (calcLoss ctxR1.mask ctxR1.A (cmat 1 1 1)
      (cmat 1 1 1)) (some ((ctxR1.A.rows * ctxR1.A.cols : ℕ) : ℝ))] := rfl
    rw [h2, hcl, hmn, Fdiv_some_some _ 1 (by norm_num)]
    rw [List.getLastD_cons, List.getLastD_nil]
    congr 1
    norm_num
  have hbound : acceptBound (s1a.loss.getLastD none) s1a.L
      (gradfW ctxR1.mask ctxR1.A ctxR1.mu s1a.H1 s1a.H2) st1a.Wk1 s1a.Wk
      (some 0) = some (2187 / 5420) := by
    rw [hll, hL, acceptBound_eval (1 / 2) (500 / 271) _ _ _ _ (-(1 / 5))
      (561 / 10000) hip hdh]
    congr 1
    norm_num
  have htest : FgtB st1a.fk1 (acceptBound (s1a.loss.getLastD none) st1a.L
      (gradfW ctxR1.mask ctxR1.A ctxR1.mu s1a.H1 s1a.H2) st1a.Wk1 s1a.Wk
      (some 0)) = false := by
    have e2 : st1a.L = s1a.L := rfl
    rw [hfk, e2, hbound]
    exact FgtB_of_le _ _ (by norm_num)
  exact ⟨hfk, hc0, hc1, innerLoop_stop ctxR1 (some 0) (some 0) 1 _ s1a.Wk _
    ctxR1.threshold 0 st1a htest⟩

/-- Evaluation of R1's second outer iteration, starting from the
committed state `(9/10, 9/10)` with `alpha = (1+lam)/L = -331/500`: the
candidate expands to `(99/100, 99/100)`, its loss `96059601/200000000`
still passes the sufficient-decrease test (because `lam < 0` destroys the
descent guarantee), and the sub-loop accepts without backtracking. -/
theorem R1_eval1 :
    st1b.fk1 = some (96059601 / 200000000) ∧
    innerLoop ctxR1 (some 0) (some 0) 1 (s1b.loss.getLastD none) s1b.Wk
      (gradfW ctxR1.mask ctxR1.A ctxR1.mu s1b.H1 s1b.H2) ctxR1.threshold 0
      st1b = Except.ok st1b := by
  obtain ⟨hfk0, hca0, hca1, _⟩ := R1_eval0
  have hWr : s1b.Wk.rows = 2 := rfl
  have hWc : s1b.Wk.cols = 1 := rfl
  have hW0 : s1b.Wk.entry 0 0 = some (9 / 10) := hca0
  have hW1 : s1b.Wk.entry 1 0 = some (9 / 10) := hca1
  have h1e : s1b.H1.entry 0 0 = some (9 / 10) := by
    show (st1a.Wk1.rowsTo 1).entry 0 0 = some (9 / 10)
    rw [rowsTo_entry]
    exact hca0
  have h2e : s1b.H2.entry 0 0 = some (9 / 10) := by
    show ((st1a.Wk1.rowsFrom 1).T).entry 0 0 = some (9 / 10)
    rw [MatT_entry, rowsFrom_entry]
    exact hca1
  have halpha : s1b.alpha = -(331 / 500) := by
    show ((1 : ℝ) + (-602 / 271)) / (500 / 271) = -(331 / 500)
    norm_num
  have hL : s1b.L = 500 / 271 := rfl
  have hg0 : (gradfW ctxR1.mask ctxR1.A ctxR1.mu s1b.H1 s1b.H2).entry 0 0 =
      some (729 / 1000) := by
    show (gradfW (cmat 1 1 1) (cmat 1 1 0) 0 s1b.H1 s1b.H2).entry 0 0 =
      some (729 / 1000)
    rw [gradfW11_entry0 0 s1b.H1 s1b.H2 (9 / 10) (9 / 10) rfl h1e h2e]
    congr 1
    norm_num
  have hg1 : (gradfW ctxR1.mask ctxR1.A ctxR1.mu s1b.H1 s1b.H2).entry 1 0 =
      some (729 / 1000) := by
    show (gradfW (cmat 1 1 1) (cmat 1 1 0) 0 s1b.H1 s1b.H2).entry 1 0 =
      some (729 / 1000)
    rw [gradfW11_entry1 0 s1b.H1 s1b.H2 (9 / 10) (9 / 10) rfl rfl h1e h2e]
    congr 1
    norm_num
  have hr2 : Mat.normSq s1b.Wk = some (81 / 50) := by
    rw [normSq21 s1b.Wk (9 / 10) (9 / 10) hWr hWc hW0 hW1]
    congr 1
    norm_num
  have hge0 : (gradStep (some 0) s1b.alpha s1b.Wk
      (gradfW ctxR1.mask ctxR1.A ctxR1.mu s1b.H1 s1b.H2)).entry 0 0 =
      some (970299 / 500000) := by
    rw [gradStep_entry (some 0) s1b.alpha s1b.Wk _ (81 / 50) 0 (9 / 10)
      (729 / 1000) 0 hr2 rfl hW0 hg0, halpha]
    congr 1
    norm_num
  have hge1 : (gradStep (some 0) s1b.alpha s1b.Wk
      (gradfW ctxR1.mask ctxR1.A ctxR1.mu s1b.H1 s1b.H2)).entry 1 0 =
      some (970299 / 500000) := by
    rw [gradStep_entry (some 0) s1b.alpha s1b.Wk _ (81 / 50) 0 (9 / 10)
      (729 / 1000) 1 hr2 rfl hW1 hg1, halpha]
    congr 1
    norm_num
  have hgradr : (gradStep (some 0) s1b.alpha s1b.Wk
      (gradfW ctxR1.mask ctxR1.A ctxR1.mu s1b.H1 s1b.H2)).rows = 2 := by
    rw [(gradStep_dims _ _ _ _).1, hWr]
  have hgradc : (gradStep (some 0) s1b.alpha s1b.Wk
      (gradfW ctxR1.mask ctxR1.A ctxR1.mu s1b.H1 s1b.H2)).cols = 1 := by
    rw [(gradStep_dims _ _ _ _).2, hWc]
  have hG : Mat.normSq (gradStep (some 0) s1b.alpha s1b.Wk
      (gradfW ctxR1.mask ctxR1.A ctxR1.mu s1b.H1 s1b.H2)) =
      some (941480149401 / 125000000000) := by
    rw [normSq21 _ (970299 / 500000) (970299 / 500000) hgradr hgradc hge0 hge1]
    congr 1
    norm_num
  have htau2 : tau2F (some 0) (gradStep (some 0) s1b.alpha s1b.Wk
      (gradfW ctxR1.mask ctxR1.A ctxR1.mu s1b.H1 s1b.H2)) =
      some (-(941480149401 / 250000000000)) := by
    rw [tau2F_eval _ _ 0 (941480149401 / 125000000000) rfl hG]
    congr 1
    norm_num
  have hT1 : stepT1 (some (-(941480149401 / 250000000000))) (some 0) =
      some (941480149401 / 125000000000) := by
    rw [stepT1_t1zero (-(941480149401 / 250000000000)) (by norm_num)]
    congr 1
    norm_num
  have hT2 : stepT2 (some (-(941480149401 / 250000000000))) (some 0) =
      some 0 := stepT2_t1zero (-(941480149401 / 250000000000)) (by norm_num)
  have ht : tOf (some 0) (some (941480149401 / 125000000000)) (some 0) =
      some (9801 / 5000) :=
    tOf_eval (941480149401 / 125000000000) (9801 / 5000) (by norm_num)
      (by norm_num)
  have hc0 : st1b.Wk1.entry 0 0 = some (99 / 100) := by
    show (candidateW ctxR1 (some 0) (some 0) s1b).entry 0 0 = some (99 / 100)
    simp only [candidateW]
    rw [htau2, hT1, hT2, ht, candW_entry _ (9801 / 5000) (970299 / 500000) 0
      (by norm_num) hge0]
    congr 1
    norm_num
  have hc1 : st1b.Wk1.entry 1 0 = some (99 / 100) := by
    show (candidateW ctxR1 (some 0) (some 0) s1b).entry 1 0 = some (99 / 100)
    simp only [candidateW]
    rw [htau2, hT1, hT2, ht, candW_entry _ (9801 / 5000) (970299 / 500000) 1
      (by norm_num) hge1]
    congr 1
    norm_num
  have hcr : st1b.Wk1.rows = 2 := rfl
  have hcc : st1b.Wk1.cols = 1 := rfl
  have he1 : (st1b.Wk1.rowsTo 1).entry 0 0 = some (99 / 100) := by
    rw [rowsTo_entry]
    exact hc0
  have he2 : ((st1b.Wk1.rowsFrom 1).T).entry 0 0 = some (99 / 100) := by
    rw [MatT_entry, rowsFrom_entry]
    exact hc1
  have hfk : st1b.fk1 = some (96059601 / 200000000) := by
    show calcLoss ctxR1.mask ctxR1.A (st1b.Wk1.rowsTo 1)
      ((st1b.Wk1.rowsFrom 1).T) = some (96059601 / 200000000)
    show calcLoss (cmat 1 1 1) (cmat 1 1 0) (st1b.Wk1.rowsTo 1)
      ((st1b.Wk1.rowsFrom 1).T) = some (96059601 / 200000000)
    rw [calcLoss11 _ _ (99 / 100) (99 / 100) rfl he1 he2]
    congr 1
    norm_num
  have hsub0 : (st1b.Wk1.sub s1b.Wk).entry 0 0 = some (99 / 100 - 9 / 10) := by
    rw [Msub_entry, hc0, hW0, Fsub_some_some]
  have hsub1 : (st1b.Wk1.sub s1b.Wk).entry 1 0 = some (99 / 100 - 9 / 10) := by
    rw [Msub_entry, hc1, hW1, Fsub_some_some]
  have hip : Mat.sumAll ((gradfW ctxR1.mask ctxR1.A ctxR1.mu s1b.H1
      s1b.H2).T.dot (st1b.Wk1.sub s1b.Wk)) = some (6561 / 50000) := by
    rw [innerProd11 _ _ (729 / 1000) (729 / 1000) (99 / 100 - 9 / 10)
      (99 / 100 - 9 / 10) rfl rfl rfl hg0 hg1 hsub0 hsub1]
    congr 1
    norm_num
  have hdh : D_h st1b.Wk1 s1b.Wk (some 0) = some (4205601 / 100000000) := by
    rw [Dh21 st1b.Wk1 s1b.Wk (99 / 100) (99 / 100) (9 / 10) (9 / 10) hcr hcc
      hWr hWc hc0 hc1 hW0 hW1]
    congr 1
    norm_num
  have hmn1 : ((1 * 1 : ℕ) : ℝ) = 1 := by norm_num
  have hll : s1b.loss.getLastD none = some (6561 / 20000) := by
    have h2 : s1b.loss = s1a.loss ++
      [Fdiv st1a.fk1 (some ((1 * 1 : ℕ) : ℝ))] := rfl
    rw [h2, getLastD_concat, hfk0, hmn1, Fdiv_some_some _ 1 (by norm_num)]
    congr 1
    norm_num
  have hbound : acceptBound (s1b.loss.getLastD none) s1b.L
      (gradfW ctxR1.mask ctxR1.A ctxR1.mu s1b.H1 s1b.H2) st1b.Wk1 s1b.Wk
      (some 0) = some (29098035 / 54200000) := by
    rw [hll, hL, acceptBound_eval (6561 / 20000) (500 / 271) _ _ _ _
      (6561 / 50000) (4205601 / 100000000) hip hdh]
    congr 1
    norm_num
  have htest : FgtB st1b.fk1 (acceptBound (s1b.loss.getLastD none) st1b.L
      (gradfW ctxR1.mask ctxR1.A ctxR1.mu s1b.H1 s1b.H2) st1b.Wk1 s1b.Wk
      (some 0)) = false := by
    have e2 : st1b.L = s1b.L := rfl
    rw [hfk, e2, hbound]
    exact FgtB_of_le _ _ (by norm_num)
  exact ⟨hfk, innerLoop_stop ctxR1 (some 0) (some 0) 1 _ s1b.Wk _
    ctxR1.threshold 0 st1b htest⟩

/-- Full evaluation of run R1: both outer iterations are accepted without
backtracking, the run returns normally, the result's `iterations` field
is 1 although two iterations executed, and the committed loss history
INCREASES at the final entry with no NaN anywhere. -/
theorem R1_run :
    MCrun ctxR1 (cmat 1 1 1) (cmat 1 1 1) =
      Except.ok ⟨s1c.H1.dot s1c.H2, s1c.loss, 1, s1c.rmse⟩ ∧
    s1c.loss =
      [some (1 / 2), some (6561 / 20000), some (96059601 / 200000000)] := by
  obtain ⟨hfk0, hca0, hca1, hIL0⟩ := R1_eval0
  obtain ⟨hfk1, hIL1⟩ := R1_eval1
  have hfins0 : Fisnan st1a.fk1 = false := by rw [hfk0]; rfl
  have hfins1 : Fisnan st1b.fk1 = false := by rw [hfk1]; rfl
  have hOS0 : outerStep ctxR1 (some 0) (some 0) 1 1 s1a =
      Except.ok (s1b, false) := by
    rw [outerStep_of_inner_ok ctxR1 (some 0) (some 0) 1 1 s1a st1a hIL0,
      hfins0]
    rfl
  have hOS1 : outerStep ctxR1 (some 0) (some 0) 1 1 s1b =
      Except.ok (s1c, false) := by
    rw [outerStep_of_inner_ok ctxR1 (some 0) (some 0) 1 1 s1b st1b hIL1,
      hfins1]
    rfl
  have hOL : outerLoop ctxR1 (some 0) (some 0) 1 1 2 0 s1a =
      Except.ok (s1c, 1) := by
    calc outerLoop ctxR1 (some 0) (some 0) 1 1 2 0 s1a
        = outerLoop ctxR1 (some 0) (some 0) 1 1 1 1 s1b :=
          outerLoop_ok_step ctxR1 (some 0) (some 0) 1 1 1 0 s1a s1b hOS0
      _ = outerLoop ctxR1 (some 0) (some 0) 1 1 0 2 s1c :=
          outerLoop_ok_step ctxR1 (some 0) (some 0) 1 1 0 1 s1b s1c hOS1
      _ = Except.ok (s1c, 1) := outerLoop_zero ctxR1 (some 0) (some 0) 1 1 2 s1c
  have hcl : calcLoss ctxR1.mask ctxR1.A (cmat 1 1 1) (cmat 1 1 1) =
      some (1 / 2) := by
    show calcLoss (cmat 1 1 1) (cmat 1 1 0) (cmat 1 1 1) (cmat 1 1 1) =
      some (1 / 2)
    rw [calcLoss11 _ _ 1 1 rfl rfl rfl]
    congr 1
    norm_num
  have hl0 : s1a.loss = [some (1 / 2)] := by
    have h2 : s1a.loss = [Fdiv (calcLoss ctxR1.mask ctxR1.A (cmat 1 1 1)
      (cmat 1 1 1)) (some ((ctxR1.A.rows * ctxR1.A.cols : ℕ) : ℝ))] := rfl
    rw [h2, hcl, show ((ctxR1.A.rows * ctxR1.A.cols : ℕ) : ℝ) = 1 from
      by show (((1 * 1 : ℕ)) : ℝ) = 1; norm_num,
      Fdiv_some_some _ 1 (by norm_num),
      show (1 : ℝ) / 2 / 1 = 1 / 2 from by norm_num]
  have hl1 : s1b.loss = [some (1 / 2), some (6561 / 20000)] := by
    have h2 : s1b.loss = s1a.loss ++
      [Fdiv st1a.fk1 (some ((1 * 1 : ℕ) : ℝ))] := rfl
    rw [h2, hl0, hfk0, show ((1 * 1 : ℕ) : ℝ) = 1 from by norm_num,
      Fdiv_some_some _ 1 (by norm_num),
      show (6561 : ℝ) / 20000 / 1 = 6561 / 20000 from by norm_num]
    rfl
  have hl2 : s1c.loss =
      [some (1 / 2), some (6561 / 20000), some (96059601 / 200000000)] := by
    have h2 : s1c.loss = s1b.loss ++
      [Fdiv st1b.fk1 (some ((1 * 1 : ℕ) : ℝ))] := rfl
    rw [h2, hl1, hfk1, show ((1 * 1 : ℕ) : ℝ) = 1 from by norm_num,
      Fdiv_some_some _ 1 (by norm_num),
      show (96059601 : ℝ) / 200000000 / 1 = 96059601 / 200000000 from
        by norm_num]
    rfl
  refine ⟨?_, hl2⟩
  rw [MCrun, if_neg (show ¬ctxR1.iterations = 0 from fun h =>
    Nat.succ_ne_zero 1 h)]
  have hA : setupTau ctxR1.A = some 0 := setupTau_zero
  have hB : setupT1 ctxR1.A = some 0 := setupT1_zero
  rw [hA, hB, show ctxR1.A.rows = 1 from rfl, show ctxR1.A.cols = 1 from rfl,
    show ctxR1.iterations = 2 from rfl,
    show startState ctxR1 (cmat 1 1 1) (cmat 1 1 1) = s1a from rfl, hOL]

/-- C4: the result record's `iterations` field is `i`, the final value of
the 0-based Python loop variable, which is one LESS than the number of
outer iterations actually executed: (a) a normally exhausted loop hands
back index `i - 1`; (b) on the concrete two-iteration run R1 the result
has `iterations = 1` although two iterations executed (the loss history
holds the baseline plus two committed entries), contradicting both the
claim and the dataclass docstring "number of iterations performed". -/
theorem claim4_theorem :
    (∀ (c : Ctx) (tau t1 : F) (m n i : ℕ) (s : RunState),
      outerLoop c tau t1 m n 0 i s = Except.ok (s, i - 1)) ∧
    (∃ r : MCResult, MCrun ctxR1 (cmat 1 1 1) (cmat 1 1 1) = Except.ok r ∧
      r.iterations = 1 ∧ r.loss_history.length = 3 ∧
      r.loss_history.length ≠ r.iterations + 1) := by
  refine ⟨fun c tau t1 m n i s => outerLoop_zero c tau t1 m n i s, ?_⟩
  obtain ⟨hrun, hloss⟩ := R1_run
  refine ⟨_, hrun, rfl, ?_, ?_⟩
  · show s1c.loss.length = 3
    rw [hloss]
    rfl
  · show s1c.loss.length ≠ 1 + 1
    rw [hloss]
    norm_num

/-- C9, amended part: whenever the backtracking sub-loop accepts (returns
normally), the accepted candidate loss fails the strict rejection test:
either it satisfies the sufficient-decrease bound or one side of the
comparison is NaN.  (The claimed monotonicity of the loss history does
NOT follow and is refuted separately.) -/
theorem claim9_theorem :
    ∀ (c : Ctx) (tau t1 : F) (m : ℕ) (lossLast : F) (Wk gradf : Mat)
      (fuel j : ℕ) (st out : InnerSt),
      innerLoop c tau t1 m lossLast Wk gradf fuel j st = Except.ok out →
      FgtB out.fk1 (acceptBound lossLast out.L gradf out.Wk1 Wk tau) =
        false := by
  intro c tau t1 m lossLast Wk gradf fuel
  induction fuel with
  | zero =>
    intro j st out hrun
    rw [innerLoop] at hrun
    by_cases hc : FgtB st.fk1 (acceptBound lossLast st.L gradf st.Wk1 Wk tau)
    · rw [if_pos hc] at hrun
      exact absurd hrun (by simp)
    · rw [if_neg hc] at hrun
      cases hrun
      simpa using hc
  | succ fuel ih =>
    intro j st out hrun
    rw [innerLoop] at hrun
    by_cases hc : FgtB st.fk1 (acceptBound lossLast st.L gradf st.Wk1 Wk tau)
    · rw [if_pos hc] at hrun
      by_cases hov : c.rho1 ^ (j + 1) > floatMax ∨ (j + 1) = c.threshold
      · rw [if_pos hov] at hrun
        exact absurd hrun (by simp)
      · rw [if_neg hov] at hrun
        exact ih (j + 1) _ out hrun
    · rw [if_neg hc] at hrun
      cases hrun
      simpa using hc

/-- C9 witness: the amended statement applied to R1's first sub-loop
call, which accepts its candidate immediately. -/
theorem claim9_witness :
    innerLoop ctxR1 (some 0) (some 0) 1 (s1a.loss.getLastD none) s1a.Wk
      (gradfW ctxR1.mask ctxR1.A ctxR1.mu s1a.H1 s1a.H2) ctxR1.threshold 0
      st1a = Except.ok st1a ∧
    FgtB st1a.fk1 (acceptBound (s1a.loss.getLastD none) st1a.L
      (gradfW ctxR1.mask ctxR1.A ctxR1.mu s1a.H1 s1a.H2) st1a.Wk1 s1a.Wk
      (some 0)) = false :=
  ⟨R1_eval0.2.2.2,
    claim9_theorem ctxR1 (some 0) (some 0) 1 (s1a.loss.getLastD none) s1a.Wk
      (gradfW ctxR1.mask ctxR1.A ctxR1.mu s1a.H1 s1a.H2) ctxR1.threshold 0
      st1a st1a R1_eval0.2.2.2⟩

/-- C9 counterexample: run R1 returns normally with loss history
`[1/2, 6561/20000, 96059601/200000000]`: no entry is NaN, yet the last
committed loss strictly EXCEEDS the previous one, so the recorded loss
history is not non-increasing (and the increase does not precede any NaN
termination). -/
theorem claim9_counterexample :
    ∃ r : MCResult, MCrun ctxR1 (cmat 1 1 1) (cmat 1 1 1) = Except.ok r ∧
      r.loss_history =
        [some (1 / 2), some (6561 / 20000), some (96059601 / 200000000)] ∧
      (∀ x ∈ r.loss_history, Fisnan x = false) ∧
      (6561 / 20000 : ℝ) < 96059601 / 200000000 := by
  obtain ⟨hrun, hloss⟩ := R1_run
  refine ⟨_, hrun, hloss, ?_, by norm_num⟩
  intro x hx
  rw [show (⟨s1c.H1.dot s1c.H2, s1c.loss, 1, s1c.rmse⟩ :
    MCResult).loss_history = s1c.loss from rfl, hloss] at hx
  simp only [List.mem_cons, List.not_mem_nil, or_false] at hx
  rcases hx with h | h | h
  all_goals rw [h]; rfl

/-- C6 witness: the amended shape invariant exercised on R1's first
accepted outer step and on the 4 by 2 / 2 by 3 stacking. -/
theorem claim6_witness :
    ((stackW (cmat 4 2 0) (cmat 2 3 0)).rows = 4 + 3 ∧
      (stackW (cmat 4 2 0) (cmat 2 3 0)).cols = 2) ∧
    (s1b.H1.rows = 1 ∧ s1b.H1.cols = 1 ∧ s1b.H2.rows = 1 ∧
      s1b.H2.cols = 1 ∧ s1b.Wk.rows = 1 + 1 ∧ s1b.Wk.cols = 1) := by
  constructor
  · exact claim6_theorem.1 (cmat 4 2 0) (cmat 2 3 0) 4 3 2 rfl rfl rfl rfl
  · have hOS0 : outerStep ctxR1 (some 0) (some 0) 1 1 s1a =
        Except.ok (s1b, false) := by
      rw [outerStep_of_inner_ok ctxR1 (some 0) (some 0) 1 1 s1a st1a
        R1_eval0.2.2.2,
        show Fisnan st1a.fk1 = false from by rw [R1_eval0.1]; rfl]
      rfl
    exact claim6_theorem.2.2 ctxR1 (some 0) (some 0) s1a s1b false 1 1 1
      rfl rfl hOS0

/-- C8: (a) an outer iteration that commits a NaN loss makes the outer
loop stop immediately and return normally, with the NaN value appended as
the last loss-history entry, the history one longer than before the
iteration, and strictly shorter than a full remaining budget would
produce; (b) a normally returned outer loop yields the result record of
`MC_adaptive_2` (no exception). -/
theorem claim8_theorem :
    (∀ (c : Ctx) (tau t1 : F) (m n fuel i : ℕ) (s s' : RunState),
      outerStep c tau t1 m n s = Except.ok (s', true) →
      outerLoop c tau t1 m n (fuel + 1) i s = Except.ok (s', i) ∧
      (∃ v, Fisnan v = true ∧ s'.loss = s.loss ++ [v]) ∧
      s'.loss.length = s.loss.length + 1 ∧
      (1 ≤ fuel → s'.loss.length < s.loss.length + (fuel + 1))) ∧
    (∀ (c : Ctx) (H1 H2 : Mat) (s' : RunState) (i : ℕ),
      ¬c.iterations = 0 →
      outerLoop c (setupTau c.A) (setupT1 c.A) c.A.rows c.A.cols
        c.iterations 0 (startState c H1 H2) = Except.ok (s', i) →
      MCrun c H1 H2 = Except.ok ⟨s'.H1.dot s'.H2, s'.loss, i, s'.rmse⟩) := by
  constructor
  · intro c tau t1 m n fuel i s s' hstep
    refine ⟨outerLoop_nan_step c tau t1 m n fuel i s s' hstep, ?_⟩
    rw [outerStep] at hstep
    cases hinner : innerLoop c tau t1 m (s.loss.getLastD none) s.Wk
        (gradfW c.mask c.A c.mu s.H1 s.H2) c.threshold 0
        (startInner c tau t1 m s) with
    | error f =>
      rw [hinner] at hstep
      exact absurd hstep (by simp)
    | ok st =>
      rw [hinner] at hstep
      obtain ⟨h1, h2⟩ := Prod.mk.inj (Except.ok.inj hstep)
      have hfkn : st.fk1 = none := by
        cases hfk : st.fk1 with
        | some a => rw [hfk] at h2; exact absurd h2 (by simp)
        | none => rfl
      refine ⟨?_, ?_, ?_⟩
      · refine ⟨Fdiv st.fk1 (some ((m * n : ℕ) : ℝ)), ?_, ?_⟩
        · rw [hfkn]
          rfl
        · rw [← h1]
          rfl
      · rw [← h1]
        show (s.loss ++ [Fdiv st.fk1 (some ((m * n : ℕ) : ℝ))]).length =
          s.loss.length + 1
        rw [List.length_append]
        rfl
      · intro hfuel
        rw [← h1]
        show (s.loss ++ [Fdiv st.fk1 (some ((m * n : ℕ) : ℝ))]).length <
          s.loss.length + (fuel + 1)
        rw [List.length_append, List.length_singleton]
        omega
  · intro c H1 H2 s' i hiter hloop
    rw [MCrun, if_neg hiter, hloop]

/-- Evaluation of run R3's first outer iteration: the NaN entries of `H1`
poison the candidate and its loss, the NaN comparison makes the
sufficient-decrease test false, so the sub-loop accepts at once and the
iteration commits a NaN loss. -/
theorem R3_eval :
    st3.fk1 = none ∧
    outerStep ctxR3 (some 0) (some 0) 1 1 s3 = Except.ok (s3b, true) := by
  have hW0n : s3.Wk.entry 0 0 = none := by
    show (stackW (nanMat 1 1) (cmat 1 1 1)).entry 0 0 = none
    rw [stackW, vstack_entry_lt _ _ 0 0 (by simp)]
    rfl
  have hge0n : (gradStep (some 0) s3.alpha s3.Wk
      (gradfW ctxR3.mask ctxR3.A ctxR3.mu s3.H1 s3.H2)).entry 0 0 = none := by
    rw [gradStep, Msub_entry, smul_entry, smul_entry, hW0n, Fmul_none_right,
      Fsub_none_left]
  have hc0n : st3.Wk1.entry 0 0 = none := by
    show (candidateW ctxR3 (some 0) (some 0) s3).entry 0 0 = none
    simp only [candidateW]
    rw [candW, smul_entry, hge0n, Fmul_none_right]
  have hdotn : ((st3.Wk1.rowsTo 1).dot ((st3.Wk1.rowsFrom 1).T)).entry 0 0 =
      none := by
    rw [dot_entry, show (st3.Wk1.rowsTo 1).cols = 1 from rfl, Fsum_one,
      rowsTo_entry, hc0n, Fmul_none_left, Fadd_none_right]
  have hfk3 : st3.fk1 = none := by
    show calcLoss ctxR3.mask ctxR3.A (st3.Wk1.rowsTo 1)
      ((st3.Wk1.rowsFrom 1).T) = none
    rw [calcLoss]
    have hfrob : (ctxR3.mask.hmul (ctxR3.A.sub ((st3.Wk1.rowsTo 1).dot
        ((st3.Wk1.rowsFrom 1).T)))).frobSq = none := by
      rw [Mat.frobSq, show (ctxR3.mask.hmul (ctxR3.A.sub ((st3.Wk1.rowsTo 1).dot
        ((st3.Wk1.rowsFrom 1).T)))).rows = 1 from rfl,
        show (ctxR3.mask.hmul (ctxR3.A.sub ((st3.Wk1.rowsTo 1).dot
        ((st3.Wk1.rowsFrom 1).T)))).cols = 1 from rfl, Fsum_one, Fsum_one,
        hmul_entry, Msub_entry, hdotn, Fsub_none_right, Fmul_none_right,
        Fmul_none_left, Fadd_none_right, Fadd_none_right]
    rw [normSq_none _ hfrob, Fmul_none_right]
  have htestn : FgtB st3.fk1 (acceptBound (s3.loss.getLastD none) st3.L
      (gradfW ctxR3.mask ctxR3.A ctxR3.mu s3.H1 s3.H2) st3.Wk1 s3.Wk
      (some 0)) = false := by
    rw [hfk3]
    exact FgtB_none_left _
  have hIL3 : innerLoop ctxR3 (some 0) (some 0) 1 (s3.loss.getLastD none)
      s3.Wk (gradfW ctxR3.mask ctxR3.A ctxR3.mu s3.H1 s3.H2) ctxR3.threshold
      0 st3 = Except.ok st3 :=
    innerLoop_stop ctxR3 (some 0) (some 0) 1 _ s3.Wk _ ctxR3.threshold 0 st3
      htestn
  refine ⟨hfk3, ?_⟩
  rw [outerStep_of_inner_ok ctxR3 (some 0) (some 0) 1 1 s3 st3 hIL3,
    show Fisnan st3.fk1 = true from by rw [hfk3]; rfl]
  rfl

/-- C8 witness: the NaN-stop behavior exercised on the concrete run R3
(budget 2, NaN committed at the first iteration, run returns normally
with the NaN in the loss history and only 2 of the 3 budgeted history
entries). -/
theorem claim8_witness :
    outerStep ctxR3 (some 0) (some 0) 1 1 s3 = Except.ok (s3b, true) ∧
    outerLoop ctxR3 (some 0) (some 0) 1 1 (1 + 1) 0 s3 =
      Except.ok (s3b, 0) ∧
    (∃ v, Fisnan v = true ∧ s3b.loss = s3.loss ++ [v]) ∧
    s3b.loss.length = s3.loss.length + 1 ∧
    ((1 : ℕ) ≤ 1 → s3b.loss.length < s3.loss.length + (1 + 1)) ∧
    ¬ctxR3.iterations = 0 ∧
    MCrun ctxR3 (nanMat 1 1) (cmat 1 1 1) =
      Except.ok ⟨s3b.H1.dot s3b.H2, s3b.loss, 0, s3b.rmse⟩ := by
  obtain ⟨hfk3, hOS3⟩ := R3_eval
  obtain ⟨hloop, hv, hlen, hshort⟩ :=
    claim8_theorem.1 ctxR3 (some 0) (some 0) 1 1 1 0 s3 s3b hOS3
  have hiter : ¬ctxR3.iterations = 0 := fun h => Nat.succ_ne_zero 1 h
  have hloop2 : outerLoop ctxR3 (setupTau ctxR3.A) (setupT1 ctxR3.A)
      ctxR3.A.rows ctxR3.A.cols ctxR3.iterations 0
      (startState ctxR3 (nanMat 1 1) (cmat 1 1 1)) = Except.ok (s3b, 0) := by
    rw [show setupTau ctxR3.A = some 0 from setupTau_zero,
      show setupT1 ctxR3.A = some 0 from setupT1_zero,
      show ctxR3.A.rows = 1 from rfl, show ctxR3.A.cols = 1 from rfl,
      show ctxR3.iterations = 2 from rfl,
      show startState ctxR3 (nanMat 1 1) (cmat 1 1 1) = s3 from rfl]
    exact hloop
  exact ⟨hOS3, hloop, hv, hlen, hshort, hiter,
    claim8_theorem.2 ctxR3 (nanMat 1 1) (cmat 1 1 1) s3b 0 hiter hloop2⟩
